import Mathlib

/-!
Verification of the `netschoolpy` client library (authentication core).

This file gives a shallow embedding, in Lean, of the authentication state
machine of `netschoolpy/client.py`: the ESIA login-response resolver, the
post-MFA step driver, the SSE QR event listener, the QR login orchestrator,
the organization picker, the portal password login, the token/cookie logins,
and the session export/import pair.  Network interactions are abstracted as
oracles (environments) supplying the server responses; local pure
computations (JSON field access, Python truthiness, string matching, state
mutation order) are translated directly from the source.  Python exceptions
are modelled by an explicit error type threaded together with the mutated
state, so that the state visible to a caller after a raised exception is
exactly the state at the raise site, as in Python.
-/

namespace NetSchoolPy

/-! ### String helpers (Python `in`, `str.lower`, `str.split` prefix) -/

/-- Lower-case a character: ASCII letters plus the Cyrillic range used by the
portal messages (an approximation of Python `str.lower`, exact on the
alphabets this client handles). -/
def lowerChar (c : Char) : Char :=
  if 0x410 ≤ c.toNat ∧ c.toNat ≤ 0x42F then Char.ofNat (c.toNat + 0x20)
  else if c.toNat = 0x401 then Char.ofNat 0x451
  else c.toLower

/-- Lower-case a string (Python `str.lower`). -/
def lowerStr (s : String) : String := String.mk (s.data.map lowerChar)

/-- Does `ns` occur at the start of `hs`? -/
def charsPrefixOf : List Char → List Char → Bool
  | [], _ => true
  | _ :: _, [] => false
  | a :: as, b :: bs => a == b && charsPrefixOf as bs

/-- Does `ns` occur anywhere inside `hs`? -/
def charsContain (ns : List Char) : List Char → Bool
  | [] => charsPrefixOf ns []
  | h :: t => charsPrefixOf ns (h :: t) || charsContain ns t

/-- Python `needle in hay` on strings. -/
def containsSub (hay needle : String) : Bool :=
  charsContain needle.data hay.data

/-- Characters before the first occurrence of `sep`, Python
`s.split(sep)[0]`. -/
def charsBeforeSep (sep : List Char) : List Char → List Char
  | [] => []
  | h :: t => if charsPrefixOf sep (h :: t) then [] else h :: charsBeforeSep sep t

/-- Python `s.split(sep)[0]`. -/
def splitFirst (s sep : String) : String :=
  String.mk (charsBeforeSep sep.data s.data)

/-- Characters after the first occurrence of `sep` (empty when absent),
Python `s.partition(sep)[2]`. -/
def charsAfterSep (sep : List Char) : List Char → List Char
  | [] => []
  | h :: t =>
      if charsPrefixOf sep (h :: t) then (h :: t).drop sep.length
      else charsAfterSep sep t

/-- Python `s.partition(sep)[2]`. -/
def afterFirst (s sep : String) : String :=
  String.mk (charsAfterSep sep.data s.data)

/-- Whitespace for Python `str.strip` (the characters this client meets). -/
def isSpaceChar (c : Char) : Bool :=
  c = ' ' || c = '\t' || c = '\n' || c = '\r'

/-- Python `s.strip()`. -/
def pyStrip (s : String) : String :=
  String.mk (((s.data.dropWhile isSpaceChar).reverse.dropWhile
    isSpaceChar).reverse)

/-- Split a character list on a separator character. -/
def splitChars (sep : Char) : List Char → List (List Char)
  | [] => [[]]
  | c :: rest =>
      let r := splitChars sep rest
      if c = sep then [] :: r
      else
        match r with
        | [] => [[c]]
        | x :: xs => (c :: x) :: xs

/-- Python `s.split(";")` for a one-character separator. -/
def pySplit (s : String) (sep : Char) : List String :=
  (splitChars sep s.data).map String.mk

/-! ### JSON values and Python dictionary access -/

/-- JSON values as Python objects (numbers restricted to integers; the
responses this client inspects carry no fractional numbers). -/
inductive JVal where
  | jnull
  | jbool (b : Bool)
  | jnum (n : Int)
  | jstr (s : String)
  | jarr (xs : List JVal)
  | jobj (fields : List (String × JVal))

/-- Fields of a JSON object body, as produced by `resp.json()` on a dict. -/
abbrev JObj := List (String × JVal)

/-- First binding of a key (Python dict lookup; server objects have unique
keys). -/
def dlookup (k : String) : JObj → Option JVal
  | [] => none
  | (k2, v) :: rest => if k = k2 then some v else dlookup k rest

/-- Python `d.get(k)` — `None` when the key is absent. -/
def dget (fs : JObj) (k : String) : JVal :=
  (dlookup k fs).getD .jnull

/-- Python `d.get(k, dflt)`. -/
def dgetD (fs : JObj) (k : String) (dflt : JVal) : JVal :=
  (dlookup k fs).getD dflt

/-- Python `k in d`. -/
def hasKey (fs : JObj) (k : String) : Bool :=
  (dlookup k fs).isSome

/-- Python truthiness of a JSON value. -/
def truthy : JVal → Bool
  | .jnull => false
  | .jbool b => b
  | .jnum n => n ≠ 0
  | .jstr s => s ≠ ""
  | .jarr xs => !xs.isEmpty
  | .jobj fs => !fs.isEmpty

/-- Python `a or b`: `a` when truthy, else `b`. -/
def orJ (a b : JVal) : JVal := if truthy a then a else b

/-- Python `v == "lit"` for a JSON value against a string literal. -/
def jeqStr (v : JVal) (lit : String) : Bool :=
  match v with
  | .jstr s => s = lit
  | _ => false

mutual
/-- Python `==` on two JSON values (dict comparison written field-by-field;
the server objects compared here — `action` fields — are scalars). -/
def pyEq : JVal → JVal → Bool
  | .jnull, .jnull => true
  | .jbool a, .jbool b => a == b
  | .jnum a, .jnum b => a == b
  | .jstr a, .jstr b => a == b
  | .jarr a, .jarr b => pyEqList a b
  | .jobj a, .jobj b => pyEqFields a b
  | _, _ => false

/-- Elementwise `pyEq` on lists. -/
def pyEqList : List JVal → List JVal → Bool
  | [], [] => true
  | a :: as, b :: bs => pyEq a b && pyEqList as bs
  | _, _ => false

/-- Itemwise `pyEq` on dict fields. -/
def pyEqFields : List (String × JVal) → List (String × JVal) → Bool
  | [], [] => true
  | (k1, v1) :: as, (k2, v2) :: bs => k1 == k2 && pyEq v1 v2 && pyEqFields as bs
  | _, _ => false
end

mutual
/-- Python `str()` of a JSON value (containers rendered with `repr` of their
elements, as Python does). -/
def pyStr : JVal → String
  | .jnull => "None"
  | .jbool b => if b then "True" else "False"
  | .jnum n => toString n
  | .jstr s => s
  | .jarr xs => "[" ++ pyStrList xs ++ "]"
  | .jobj fs => "\x7b" ++ pyStrFields fs ++ "\x7d"

/-- Python `repr()` of a JSON value. -/
def pyRepr : JVal → String
  | .jnull => "None"
  | .jbool b => if b then "True" else "False"
  | .jnum n => toString n
  | .jstr s => "\x27" ++ s ++ "\x27"
  | .jarr xs => "[" ++ pyStrList xs ++ "]"
  | .jobj fs => "\x7b" ++ pyStrFields fs ++ "\x7d"

/-- Comma-joined `repr`s of list elements. -/
def pyStrList : List JVal → String
  | [] => ""
  | [x] => pyRepr x
  | x :: rest => pyRepr x ++ ", " ++ pyStrList rest

/-- Comma-joined `repr(k): repr(v)` pairs of dict items. -/
def pyStrFields : List (String × JVal) → String
  | [] => ""
  | [(k, v)] => "\x27" ++ k ++ "\x27: " ++ pyRepr v
  | (k, v) :: rest => "\x27" ++ k ++ "\x27: " ++ pyRepr v ++ ", " ++ pyStrFields rest
end

mutual
/-- Python `json.dumps(..., ensure_ascii=False)` of a JSON value. -/
def dumpJson : JVal → String
  | .jnull => "null"
  | .jbool b => if b then "true" else "false"
  | .jnum n => toString n
  | .jstr s => "\"" ++ s ++ "\""
  | .jarr xs => "[" ++ dumpJsonList xs ++ "]"
  | .jobj fs => "\x7b" ++ dumpJsonFields fs ++ "\x7d"

/-- Comma-joined serialized list elements. -/
def dumpJsonList : List JVal → String
  | [] => ""
  | [x] => dumpJson x
  | x :: rest => dumpJson x ++ ", " ++ dumpJsonList rest

/-- Comma-joined serialized dict items. -/
def dumpJsonFields : List (String × JVal) → String
  | [] => ""
  | [(k, v)] => "\"" ++ k ++ "\": " ++ dumpJson v
  | (k, v) :: rest => "\"" ++ k ++ "\": " ++ dumpJson v ++ ", " ++ dumpJsonFields rest
end

/-! ### Exceptions (`netschoolpy/exceptions.py` plus transport errors) -/

/-- Python exceptions observable by the embedded procedures.  The
`netschoolpy` exception classes carry only a message; `httpStatus` models an
`httpx.HTTPStatusError` with the response status; `pyOther` stands for any
other exception (TypeError, KeyError, network failures, ...). -/
inductive PyErr where
  | loginError (msg : String)
  | mfaError (msg : String)
  | esiaError (msg : String)
  | schoolNotFound (name : String)
  | sessionExpired (msg : String)
  | serverUnavailable (msg : String)
  | httpStatus (code : Int)
  | pyOther
  deriving DecidableEq, Repr

/-- Python `str(e)` on the library's message-carrying exceptions. -/
def errStr : PyErr → String
  | .loginError m => m
  | .mfaError m => m
  | .esiaError m => m
  | .schoolNotFound n => n
  | .sessionExpired m => m
  | .serverUnavailable m => m
  | .httpStatus _ => ""
  | .pyOther => ""

/-- Python `isinstance(e, exceptions.ESIAError)` (only `ESIAError` instances
match; `MFAError` and plain `LoginError` are sibling classes). -/
def isEsiaErr : PyErr → Bool
  | .esiaError _ => true
  | _ => false

/-! ### `NetSchool._extract_redirect_url` (client.py 220–238) -/

/-- Extract the redirect URL from an ESIA response, trying the direct field
names and then the same names one level under `data`; returns whatever
(possibly falsy) value the lookup chain produced, as the Python function
does. -/
def extractRedirectUrl (loginData : JObj) : JVal :=
  let r0 := dget loginData "redirect_url"
  let r1 :=
    if truthy r0 then r0
    else
      orJ (dget loginData "redirectUrl")
        (orJ (dget loginData "redirectURL")
          (orJ (dget loginData "url") (dget loginData "redirect")))
  if truthy r1 then r1
  else
    match dget loginData "data" with
    | .jobj ds =>
        orJ (dget ds "redirect_url")
          (orJ (dget ds "redirectUrl")
            (orJ (dget ds "redirectURL") (dget ds "url")))
    | _ => r1

/-! ### `NetSchool._handle_esia_post_mfa` (client.py 964–1059)

The broker endpoints queried by the driver are abstracted as oracles indexed
by the number of calls made so far to that endpoint.  `nextStep` yields the
parsed JSON body of `GET .../next-step` (the code performs no status check
there); `quizSkip` and `pwSkip` yield status code and parsed body of the two
skip POSTs; `anomaly` yields the value returned by the (interactive)
`_handle_esia_anomaly` delegate.  An `.error` oracle result models an
exception raised by the call (transport failure or unparseable body). -/

/-- Oracle environment for the post-MFA step driver. -/
structure PostMfaEnv where
  nextStep : Nat → Except PyErr JVal
  quizSkip : Nat → Except PyErr (Int × JVal)
  pwSkip : Nat → Except PyErr (Int × JVal)
  anomaly : Nat → Except PyErr JVal

/-- The `for _ in range(10)` loop of `_handle_esia_post_mfa`.  `ns`, `qs`,
`ps`, `an` count the calls already made to each endpoint, `iters` the loop
iterations already executed; the result is paired with the total number of
iterations executed. -/
def postMfaLoop (env : PostMfaEnv) :
    Nat → Nat → Nat → Nat → Nat → JObj → JVal → Nat →
      (Except PyErr JVal) × Nat
  | _, _, _, _, iters, _, _, 0 =>
      (.error (.esiaError "Слишком много шагов ESIA, возможно зацикливание"),
       iters)
  | ns, qs, ps, an, iters, data, action, fuel + 1 =>
      let iters := iters + 1
      if jeqStr action "DONE" then
        let redirectUrl := dget data "redirect_url"
        if truthy redirectUrl then (.ok redirectUrl, iters)
        else (.error (.esiaError "ESIA вернула DONE без redirect_url"), iters)
      else if jeqStr action "MAX_QUIZ" then
        match dgetD data "max_details" (.jobj []) with
        | .jobj ms =>
            if !truthy (dgetD ms "skippable" (.jbool false)) then
              (.error (.esiaError
                ("ESIA требует настройку Госключа (MAX_QUIZ), "
                  ++ "но пропуск недоступен. Настройте Госключ в "
                  ++ "личном кабинете Госуслуг.")), iters)
            else
              match env.quizSkip qs with
              | .error e => (.error e, iters)
              | .ok (status, body) =>
                  if status ≠ 200 then
                    (.error (.esiaError
                      ("Не удалось пропустить MAX_QUIZ (HTTP "
                        ++ toString status ++ ")")), iters)
                  else
                    match body with
                    | .jobj fs =>
                        postMfaLoop env ns (qs + 1) ps an iters fs
                          (dgetD fs "action" (.jstr "")) fuel
                    | _ => (.error .pyOther, iters)
        | _ => (.error .pyOther, iters)
      else if jeqStr action "CHANGE_PASSWORD" then
        match env.pwSkip ps with
        | .error e => (.error e, iters)
        | .ok (status, body) =>
            if status == 200 then
              match body with
              | .jobj fs =>
                  postMfaLoop env ns qs (ps + 1) an iters fs
                    (dgetD fs "action" (.jstr "")) fuel
              | _ => (.error .pyOther, iters)
            else
              match env.nextStep ns with
              | .error e => (.error e, iters)
              | .ok (.jobj fs) =>
                  postMfaLoop env (ns + 1) qs (ps + 1) an iters fs
                    (dgetD fs "action" (.jstr "")) fuel
              | .ok _ => (.error .pyOther, iters)
      else if jeqStr action "SOLVE_ANOMALY_REACTION" then
        match env.anomaly an with
        | .error e => (.error e, iters)
        | .ok redirectUrl =>
            if truthy redirectUrl then (.ok redirectUrl, iters)
            else
              match env.nextStep ns with
              | .error e => (.error e, iters)
              | .ok (.jobj fs) =>
                  postMfaLoop env (ns + 1) qs ps (an + 1) iters fs
                    (dgetD fs "action" (.jstr "")) fuel
              | .ok _ => (.error .pyOther, iters)
      else
        match env.nextStep ns with
        | .error e => (.error e, iters)
        | .ok (.jobj newData) =>
            let newAction := dgetD newData "action" (.jstr "")
            if pyEq newAction action then
              (.error (.esiaError
                ("Неизвестный шаг ESIA: " ++ pyStr action ++ ". Данные: "
                  ++ (dumpJson (.jobj data)).take 300)), iters)
            else
              postMfaLoop env (ns + 1) qs ps an iters newData newAction fuel
        | .ok _ => (.error .pyOther, iters)

/-- `_handle_esia_post_mfa`: optional pre-fetch of a first step when the
supplied data is empty or has no truthy `action`, then the bounded loop.
The second component counts the loop iterations executed. -/
def handleEsiaPostMfa (env : PostMfaEnv) (data0 : JObj) :
    (Except PyErr JVal) × Nat :=
  if data0.isEmpty || !truthy (dget data0 "action") then
    match env.nextStep 0 with
    | .error e => (.error e, 0)
    | .ok (.jobj fs) =>
        postMfaLoop env 1 0 0 0 0 fs (dgetD fs "action" (.jstr "")) 10
    | .ok _ => (.error .pyOther, 0)
  else
    postMfaLoop env 0 0 0 0 0 data0 (dgetD data0 "action" (.jstr "")) 10

/-! ### `NetSchool._esia_resolve_login_response` (client.py 240–270) -/

/-- Oracle environment for the resolver: the two interactive delegates
(`_handle_esia_mfa`, `_handle_esia_anomaly`) are abstracted by their
outcome, while the post-MFA driver is the embedded one. -/
structure ResolveEnv where
  mfa : Except PyErr JVal
  anomaly : Except PyErr JVal
  postMfaEnv : PostMfaEnv

/-- Resolve an ESIA login response to a redirect URL: a truthy extracted
redirect URL is returned at once; otherwise the `action` field dispatches
to the MFA / anomaly / post-MFA handlers, `DONE` without a redirect URL and
unrecognized actions fail. -/
def esiaResolveLoginResponse (env : ResolveEnv) (loginData : JObj) :
    Except PyErr JVal :=
  let redirectUrl := extractRedirectUrl loginData
  if truthy redirectUrl then .ok redirectUrl
  else
    let action := dgetD loginData "action" (.jstr "")
    if jeqStr action "ENTER_MFA" then env.mfa
    else if jeqStr action "SOLVE_ANOMALY_REACTION" then env.anomaly
    else if jeqStr action "DONE" then
      let url := dget loginData "redirect_url"
      if truthy url then .ok url
      else .error (.esiaError "ESIA вернула DONE без redirect_url")
    else if jeqStr action "MAX_QUIZ" || jeqStr action "CHANGE_PASSWORD" then
      (handleEsiaPostMfa env.postMfaEnv loginData).1
    else
      .error (.esiaError
        ("Неожиданный ответ ESIA: " ++ (dumpJson (.jobj loginData)).take 500))

/-! ### `NetSchool._poll_esia_qr_sse` (client.py 664–770)

The raw socket is abstracted at the line level: the stream delivers a
sequence of complete lines (the byte-level chunk reassembly preserves their
order), each classified the way the Python loop does — lines not starting
with `data:`, empty `data:` payloads, and payloads `json.loads` rejects are
skipped; a parsed payload is an event.  After the delivered lines, the next
read either times out (`asyncio.wait_for`) or returns an empty chunk
(connection closed). -/

/-- One complete line of the SSE stream, as the Python loop classifies it. -/
inductive SseLine where
  | other
  | emptyData
  | badJson
  | event (j : JVal)

/-- What the next socket read does once the delivered lines are exhausted. -/
inductive SseEnding where
  | timedOut
  | closed

/-- The error codes treated as an expired QR session. -/
def sseExpiredCodes : List String :=
  ["QR_AUTHORIZATION_SESSION_EXPIRED",
   "QR_CODE_SESSION_NOT_FOUND",
   "QR_CODE_SESSION_OUTDATED"]

/-- Python `code in (A, B, C)` for the expired-codes tuple. -/
def codeExpired (code : JVal) : Bool :=
  match code with
  | .jstr s => sseExpiredCodes.contains s
  | _ => false

/-- The `data.get("error", {})` / `error.get("code", "")` extraction. -/
def sseErrorCode (fs : JObj) : JVal :=
  match dgetD fs "error" (.jobj []) with
  | .jobj efs => dgetD efs "code" (.jstr "")
  | _ => .jstr ""

/-- The `error.get("message", "")` extraction. -/
def sseErrorMsg (fs : JObj) : JVal :=
  match dgetD fs "error" (.jobj []) with
  | .jobj efs => dgetD efs "message" (.jstr "")
  | _ => .jstr ""

/-- The read/parse loop of `_poll_esia_qr_sse`: the first decisive event
wins — an expired code raises the distinct expired error, any other truthy
code raises the generic broker error with code and message, any other event
is returned as the success payload; with no decisive event, the ending
determines a timeout or connection-closed error.  A non-dict event crashes
on `data.get` (AttributeError), as in Python. -/
def pollSseLines : List SseLine → SseEnding → Except PyErr JVal
  | [], .timedOut => .error (.esiaError "Таймаут ожидания QR сканирования")
  | [], .closed => .error (.esiaError "SSE соединение закрыто сервером")
  | .other :: rest, ending => pollSseLines rest ending
  | .emptyData :: rest, ending => pollSseLines rest ending
  | .badJson :: rest, ending => pollSseLines rest ending
  | .event j :: _, _ =>
      match j with
      | .jobj fs =>
          let code := sseErrorCode fs
          if codeExpired code then
            .error (.esiaError ("QR сессия истекла: " ++ pyStr code))
          else if truthy code then
            .error (.esiaError
              ("Ошибка ESIA при QR-входе: " ++ pyStr code ++ " — "
                ++ pyStr (sseErrorMsg fs)))
          else .ok (.jobj fs)
      | _ => .error .pyOther

/-- Lines the loop skips without deciding. -/
def isSkipLine : SseLine → Bool
  | .other => true
  | .emptyData => true
  | .badJson => true
  | .event _ => false

/-! ### `NetSchool._pick_esia_user` (client.py 774–817) -/

/-- The best-effort display label `_label(u)` of one account-info user:
first truthy of the four name fields, else `str(u.get("id", "?"))`. -/
def userLabel (fs : JObj) : JVal :=
  orJ (dget fs "displayName")
    (orJ (dget fs "name")
      (orJ (dget fs "schoolName")
        (orJ (dget fs "organizationName")
          (.jstr (pyStr (dgetD fs "id" (.jstr "?")))))))

/-- Labels of all users, computed before the hint is consulted (as the list
comprehension does); `none` models the AttributeError on a non-dict user. -/
def userLabels : List JVal → Option (List JVal)
  | [] => some []
  | .jobj fs :: rest => (userLabels rest).map (fun ls => userLabel fs :: ls)
  | _ :: _ => none

/-- Outcome of the organization picker. -/
inductive PickResult where
  | picked (u : JVal)
  | failed (school : String) (labels : List JVal)
  | interactive
  | crashed

/-- The `for idx, lbl in enumerate(labels)` search: first label whose
lower-cased text contains the lower-cased hint wins; reaching a non-string
label crashes on `.lower()`; no match fails listing all labels. -/
def pickScan (school : String) (allLabels : List JVal) :
    List JVal → List JVal → PickResult
  | .jstr l :: ls, u :: us =>
      if containsSub (lowerStr l) (lowerStr school) then .picked u
      else pickScan school allLabels ls us
  | _ :: _, _ :: _ => .crashed
  | _, _ => .failed school allLabels

/-- `_pick_esia_user`: a sole candidate is returned unconditionally; with a
truthy hint the first substring match (case-insensitive) wins and zero
matches fail; otherwise the picker prompts interactively. -/
def pickEsiaUser (users : List JVal) (school : Option String) : PickResult :=
  match users with
  | [u] => .picked u
  | _ =>
      match userLabels users with
      | none => .crashed
      | some labels =>
          match school with
          | some sc =>
              if sc ≠ "" then pickScan sc labels labels users
              else .interactive
          | none => .interactive

/-- The picker's match relation: the lower-cased hint occurs in the
lower-cased display label. -/
def labelMatches (school l : String) : Bool :=
  containsSub (lowerStr l) (lowerStr school)

/-- Labels of a user list in the well-formed case where every user is an
object and every computed label a string (the shape the broker sends);
`none` otherwise. -/
def labelStrings : List JVal → Option (List String)
  | [] => some []
  | .jobj fs :: rest =>
      match userLabel fs with
      | .jstr l => (labelStrings rest).map (fun ls => l :: ls)
      | _ => none
  | _ :: _ => none

/-! ### Session state (`NetSchool.__init__`, client.py 61–73)

Python mutates `self` field by field and a raised exception leaves the
mutations made so far in place, so every embedded procedure has type
`Session → Except (PyErr × Session) Session`: on error the paired session
is the state at the raise site. -/

/-- The `school` argument of `login` — a numeric id or a name to resolve. -/
inductive SchoolArg where
  | byId (i : Int)
  | byName (n : String)
  deriving DecidableEq, Repr

/-- One cookie of the external (ESIA) client's jar; `domain = ""` models a
cookie without a domain. -/
structure Cookie where
  name : String
  value : String
  domain : String := ""
  deriving DecidableEq, Repr

/-- The client's mutable session state: the fields of `NetSchool.__init__`
plus the `at` header and cookie jar of its `HttpSession`.  The keep-alive
task handle is modelled by whether the task is running. -/
structure Session where
  student_id : Int := -1
  year_id : Int := -1
  school_id : Int := -1
  assignment_types : List (Int × String × String) := []
  credentials : Option (String × String × SchoolArg) := none
  access_token : JVal := .jnull
  keepalive : Bool := false
  at_header : JVal := .jnull
  cookies : List (String × String) := []

/-- Insert-or-overwrite into a name/value map (httpx cookie and header
assignment). -/
def setKV (m : List (String × String)) (k v : String) :
    List (String × String) :=
  if (m.lookup k).isSome then
    m.map (fun p => if p.1 = k then (k, v) else p)
  else m ++ [(k, v)]

/-- Set every pair of `kvs` into `m`. -/
def setKVs (m : List (String × String)) (kvs : List (String × String)) :
    List (String × String) :=
  kvs.foldl (fun acc kv => setKV acc kv.1 kv.2) m

/-- Insert-or-overwrite a cookie into the external jar, keyed by name and
domain. -/
def setCookieJar (jar : List Cookie) (c : Cookie) : List Cookie :=
  if jar.any (fun c2 => c2.name = c.name && c2.domain = c.domain) then
    jar.map (fun c2 => if c2.name = c.name && c2.domain = c.domain then c else c2)
  else jar ++ [c]

/-- Absorb a list of cookies into the external jar. -/
def applyCookies (jar news : List Cookie) : List Cookie :=
  news.foldl setCookieJar jar

/-- The Session-Transfer cookie copy of `_esia_finalize_login` (client.py
376–378): only cookies whose domain mentions `sgo`, or that have no domain,
are copied into the portal session. -/
def copySgoCookies (sess : List (String × String)) (jar : List Cookie) :
    List (String × String) :=
  jar.foldl
    (fun acc c =>
      if containsSub c.domain "sgo" || c.domain == "" then
        setKV acc c.name c.value
      else acc)
    sess

/-! ### `NetSchool._finish_login` (client.py 1199–1217) -/

/-- Oracle for the shared post-login initialization calls (and the
`student/diary/init` call of the procedures that perform it): each field is
the outcome of one portal request, `Int` results standing for the ids the
code extracts from the parsed body. -/
structure InitEnv where
  diaryInit : Except PyErr Int
  yearsCurrent : Except PyErr Int
  context : Except Unit Int
  assignmentTypes : Except PyErr (List (Int × String × String))

/-- `_finish_login`: fetch the current year, best-effort fetch the school id
from `context` when it is unset (failures swallowed), then the
assignment-type dictionary. -/
def finishLogin (env : InitEnv) (s : Session) : Except (PyErr × Session) Session :=
  match env.yearsCurrent with
  | .error e => .error (e, s)
  | .ok y =>
      let s1 := { s with year_id := y }
      let s2 :=
        if s1.school_id ≤ 0 then
          match env.context with
          | .ok sch => { s1 with school_id := sch }
          | .error _ => s1
        else s1
      match env.assignmentTypes with
      | .error e => .error (e, s2)
      | .ok ats => .ok { s2 with assignment_types := ats }

/-! ### `NetSchool.export_session` / `import_session` (client.py 1360–1420)

The JSON round trip through `json.dumps`/`json.loads` is modelled by the
payload record itself (`export_session` always emits every key, so the
`payload.get(..., -1)` defaults of the import read back the exported
values). -/

/-- The persisted session snapshot. -/
structure SessionPayload where
  version : Int := 1
  access_token : JVal := .jnull
  student_id : Int := -1
  year_id : Int := -1
  school_id : Int := -1
  cookies : List (String × String) := []

/-- `export_session`. -/
def exportSession (s : Session) : SessionPayload :=
  { version := 1
    access_token := s.access_token
    student_id := s.student_id
    year_id := s.year_id
    school_id := s.school_id
    cookies := s.cookies }

/-- `import_session`: install token and cookies, validate via the identity
init call (any failure there becomes `SessionExpired`), restore year and
school ids from the payload, then run the shared initialization and start
the keep-alive. -/
def importSession (env : InitEnv) (p : SessionPayload) (s : Session) :
    Except (PyErr × Session) Session :=
  let s1 := { s with access_token := p.access_token, at_header := p.access_token }
  let s2 := { s1 with cookies := setKVs s1.cookies p.cookies }
  match env.diaryInit with
  | .error e =>
      .error (.sessionExpired ("Сессия истекла или невалидна: " ++ errStr e), s2)
  | .ok sid =>
      let s3 := { s2 with student_id := sid }
      let s4 := { s3 with year_id := p.year_id, school_id := p.school_id }
      match finishLogin env s4 with
      | .error es => .error es
      | .ok s5 => .ok { s5 with keepalive := true }

/-! ### `NetSchool._resolve_school` (client.py 1637–1671) -/

/-- One result of `schools/search` with the fields the resolver reads
(`id` assumed present, as the portal guarantees). -/
structure SchoolItem where
  shortName : Option String := none
  name : String := ""
  id : Int
  deriving DecidableEq, Repr

/-- `_resolve_school` on a fetched result list: exact `shortName` match,
then exact `name` match up to the ` (` suffix, then a singleton result;
otherwise `SchoolNotFound`.  A success also stores the id. -/
def resolveSchool (items : List SchoolItem) (schoolName : String)
    (s : Session) : Except (PyErr × Session) (Int × Session) :=
  match items.find? (fun it => it.shortName = some schoolName) with
  | some it => .ok (it.id, { s with school_id := it.id })
  | none =>
      match items.find? (fun it => splitFirst it.name " (" = schoolName) with
      | some it => .ok (it.id, { s with school_id := it.id })
      | none =>
          match items with
          | [it] => .ok (it.id, { s with school_id := it.id })
          | _ => .error (.schoolNotFound schoolName, s)

/-! ### `NetSchool.login` — portal password login (client.py 93–173) -/

/-- Outcome of the `login` POST: a parsed 2xx body, an HTTP 409 with an
optional parsed body, or any other raised exception. -/
inductive LoginPostOutcome where
  | ok (body : JObj)
  | conflict (body : Option JObj)
  | raised (e : PyErr)

/-- Oracle for the portal password login. -/
structure PwLoginEnv where
  logindata : Except PyErr Unit
  getdata : Except PyErr String
  schoolsSearch : Except PyErr (List SchoolItem)
  loginPost : LoginPostOutcome
  diaryInit : Except PyErr Int
  yearsCurrent : Except PyErr Int
  assignmentTypes : Except PyErr (List (Int × String × String))

/-- `login`: fetch the session cookie and salt, resolve the school (storing
its id before the POST), post the credentials, then on success store the
token, run the three initialization fetches, retain the credentials and
start the keep-alive.  The md5 password hashing feeds only the request
body, which the `loginPost` oracle abstracts. -/
def loginProc (env : PwLoginEnv) (userName password : String)
    (school : SchoolArg) (s : Session) : Except (PyErr × Session) Session :=
  match env.logindata with
  | .error e => .error (e, s)
  | .ok _ =>
  match env.getdata with
  | .error e => .error (e, s)
  | .ok _salt =>
  match (match school with
         | .byId i => Except.ok (i, s)
         | .byName n =>
             match env.schoolsSearch with
             | .error e => Except.error (e, s)
             | .ok items => resolveSchool items n s) with
  | .error es => .error es
  | .ok (sid, s1) =>
  let s2 := { s1 with school_id := sid }
  match env.loginPost with
  | .conflict none => .error (.loginError "", s2)
  | .conflict (some body) =>
      .error (.loginError (pyStr (dgetD body "message" (.jstr "Ошибка авторизации"))), s2)
  | .raised e => .error (e, s2)
  | .ok result =>
  if !hasKey result "at" then
    .error (.loginError (pyStr (dgetD result "message" (.jstr "Нет токена"))), s2)
  else
  let atVal := dget result "at"
  let s3 := { s2 with access_token := atVal, at_header := atVal }
  match env.diaryInit with
  | .error e => .error (e, s3)
  | .ok sid2 =>
  let s4 := { s3 with student_id := sid2 }
  match env.yearsCurrent with
  | .error e => .error (e, s4)
  | .ok y =>
  let s5 := { s4 with year_id := y }
  match env.assignmentTypes with
  | .error e => .error (e, s5)
  | .ok ats =>
      .ok { s5 with
            assignment_types := ats
            credentials := some (userName, password, school)
            keepalive := true }

/-! ### `NetSchool._esia_finalize_login` (client.py 306–388) -/

/-- Oracle for the finalize step: `accountInfo` and `idpLogin` give status
code, response text (used in error messages) and parsed JSON body of the
two portal calls; `promptChoice` is the 1-based selection the interactive
organization prompt eventually obtains (the real prompt re-asks until
valid; an out-of-range oracle value is marked as a failure). -/
structure FinalizeEnv where
  logindata : Except PyErr Unit
  accountInfo : Except PyErr (Int × String × JVal)
  idpLogin : Except PyErr (Int × String × JVal)
  promptChoice : Nat
  init : InitEnv

/-- The first role id of a picked user: `roles[0]["id"] if roles else None`;
`none` in the error position models the TypeError/KeyError crashes on
malformed role data. -/
def firstRoleId (ufs : JObj) : Except PyErr (Option JVal) :=
  match dgetD ufs "roles" (.jarr []) with
  | .jarr [] => .ok none
  | .jarr (r0 :: _) =>
      match r0 with
      | .jobj rfs =>
          match dlookup "id" rfs with
          | some rv => .ok (some rv)
          | none => .error .pyOther
      | _ => .error .pyOther
  | other => if truthy other then .error .pyOther else .ok none

/-- Join the (all-string, by construction of `pickScan`) labels for the
organization-not-found message. -/
def joinLabels (labels : List JVal) : String :=
  String.intercalate ", " (labels.map pyStr)

/-- `_esia_finalize_login`: account-info fetch, organization pick, IDP
login POST, then Session Transfer — store the portal token, copy the
portal-domain cookies from the external jar, run the identity init and the
shared initialization, clear the retained credentials and start the
keep-alive.  The login-state token and the selected ids feed only the
request bodies, which the oracles abstract. -/
def esiaFinalizeLogin (env : FinalizeEnv) (jar : List Cookie)
    (school : Option String) (s : Session) : Except (PyErr × Session) Session :=
  match env.logindata with
  | .error e => .error (e, s)
  | .ok _ =>
  match env.accountInfo with
  | .error e => .error (e, s)
  | .ok (status, text, body) =>
  if status ≠ 200 then
    .error (.esiaError ("Не удалось получить account-info: "
      ++ toString status ++ " " ++ text.take 200), s)
  else
  match body with
  | .jobj afs =>
    match dgetD afs "users" (.jarr []) with
    | .jarr users =>
      if users.isEmpty then
        .error (.loginError ("Нет привязанных пользователей SGO. "
          ++ "Привяжите аккаунт Госуслуг к Сетевому Городу."), s)
      else
      match (match pickEsiaUser users school with
             | .picked u => Except.ok u
             | .failed sc labels =>
                 Except.error (PyErr.loginError ("Организация «" ++ sc
                   ++ "» не найдена. Доступные: " ++ joinLabels labels))
             | .interactive =>
                 match users.get? (env.promptChoice - 1) with
                 | some u => Except.ok u
                 | none => Except.error PyErr.pyOther
             | .crashed => Except.error PyErr.pyOther) with
      | .error e => .error (e, s)
      | .ok user =>
      match user with
      | .jobj ufs =>
        match dlookup "id" ufs with
        | none => .error (.pyOther, s)
        | some _userId =>
        match firstRoleId ufs with
        | .error e => .error (e, s)
        | .ok _role =>
        match env.idpLogin with
        | .error e => .error (e, s)
        | .ok (istatus, itext, ibody) =>
        if istatus ≠ 200 then
          .error (.loginError ("IDP-логин в SGO не удался: "
            ++ toString istatus ++ " " ++ itext.take 300), s)
        else
        match ibody with
        | .jobj rfs =>
          let atVal := dgetD rfs "at" (.jstr "")
          if !truthy atVal then
            .error (.loginError "SGO не вернул access token (at)", s)
          else
          let s1 := { s with access_token := atVal, at_header := atVal }
          let s2 := { s1 with cookies := copySgoCookies s1.cookies jar }
          match env.init.diaryInit with
          | .error e => .error (e, s2)
          | .ok sid =>
          let s3 := { s2 with student_id := sid }
          match finishLogin env.init s3 with
          | .error es => .error es
          | .ok s4 => .ok { s4 with credentials := none, keepalive := true }
        | _ => .error (.pyOther, s)
      | _ => .error (.pyOther, s)
    | other =>
        if truthy other then .error (.pyOther, s)
        else
          .error (.loginError ("Нет привязанных пользователей SGO. "
            ++ "Привяжите аккаунт Госуслуг к Сетевому Городу."), s)
  | _ => .error (.pyOther, s)

/-! ### `NetSchool.login_with_token` (client.py 1219–1246) -/

/-- Oracle for the token and cookie logins. -/
structure TokenLoginEnv where
  diaryInit : Except PyErr Int
  init : InitEnv
  schoolsSearch : Except PyErr (List SchoolItem)

/-- `login_with_token`: install the token, run the identity init (failures
propagate unchanged) and the shared initialization, optionally resolve the
school, clear the credentials and start the keep-alive. -/
def loginWithToken (env : TokenLoginEnv) (token : String)
    (school : Option SchoolArg) (s : Session) : Except (PyErr × Session) Session :=
  let s1 := { s with access_token := .jstr token, at_header := .jstr token }
  match env.diaryInit with
  | .error e => .error (e, s1)
  | .ok sid =>
  let s2 := { s1 with student_id := sid }
  match finishLogin env.init s2 with
  | .error es => .error es
  | .ok s3 =>
  match school with
  | none => .ok { s3 with credentials := none, keepalive := true }
  | some (.byId i) =>
      .ok { s3 with school_id := i, credentials := none, keepalive := true }
  | some (.byName n) =>
      match env.schoolsSearch with
      | .error e => .error (e, s3)
      | .ok items =>
          match resolveSchool items n s3 with
          | .error es => .error es
          | .ok (sid2, s4) =>
              .ok { s4 with
                    school_id := sid2
                    credentials := none
                    keepalive := true }

/-! ### `NetSchool.login_with_cookies` and `_parse_cookies`
(client.py 1263–1327) -/

/-- Does the string match `[0-9a-fA-F]{32}` entirely? -/
def isHex32 (s : String) : Bool :=
  s.length == 32 &&
    s.data.all (fun c =>
      c.isDigit || (0x61 ≤ c.toNat && c.toNat ≤ 0x66)
        || (0x41 ≤ c.toNat && c.toNat ≤ 0x46))

/-- `_parse_cookies`: a bare 32-hex string is the session id; otherwise a
`;`-separated cookie string is split on the first `=` of each part, and the
result is kept only when it contains `NSSESSIONID`. -/
def parseCookies (raw : String) : List (String × String) :=
  let raw := pyStrip raw
  if raw = "" then []
  else if isHex32 raw then [("NSSESSIONID", raw)]
  else
    let result := (pySplit raw ';').foldl
      (fun acc part =>
        let part := pyStrip part
        if containsSub part "=" then
          setKV acc (pyStrip (splitFirst part "=")) (pyStrip (afterFirst part "="))
        else acc)
      []
    if (result.lookup "NSSESSIONID").isSome then result else []

/-- Oracle for the cookie login: the identity init call also yields the
`at` response header (empty when absent). -/
structure CookieLoginEnv where
  diaryInit : Except PyErr (Int × String)
  init : InitEnv
  schoolsSearch : Except PyErr (List SchoolItem)

/-- `login_with_cookies`: parse and install the cookies, validate via the
identity init (failures become `SessionExpired`), pick up the `at` response
header when present, run the shared initialization, optionally resolve the
school, clear the credentials and start the keep-alive. -/
def loginWithCookies (env : CookieLoginEnv) (cookies : String)
    (school : Option SchoolArg) (s : Session) : Except (PyErr × Session) Session :=
  let parsed := parseCookies cookies
  if parsed.isEmpty then
    .error (.loginError ("Не удалось извлечь куки. Передайте строку вида "
      ++ "\x27NSSESSIONID=xxx\x27 или полную Cookie-строку из DevTools."), s)
  else
  let s1 := { s with cookies := setKVs s.cookies parsed }
  match env.diaryInit with
  | .error e =>
      .error (.sessionExpired ("Куки невалидны или сессия истекла: " ++ errStr e), s1)
  | .ok (sid, atHdr) =>
  let s2 := { s1 with student_id := sid }
  let s3 :=
    if atHdr ≠ "" then
      { s2 with access_token := .jstr atHdr, at_header := .jstr atHdr }
    else s2
  match finishLogin env.init s3 with
  | .error es => .error es
  | .ok s4 =>
  match school with
  | none => .ok { s4 with credentials := none, keepalive := true }
  | some (.byId i) =>
      .ok { s4 with school_id := i, credentials := none, keepalive := true }
  | some (.byName n) =>
      match env.schoolsSearch with
      | .error e => .error (e, s4)
      | .ok items =>
          match resolveSchool items n s4 with
          | .error es => .error es
          | .ok (sid2, s5) =>
              .ok { s5 with
                    school_id := sid2
                    credentials := none
                    keepalive := true }

/-! ### `NetSchool._authed_get` (client.py 1426–1440) -/

/-- Oracle for an authenticated GET: the first request's outcome, the
environment of the transparent re-login, and the retried request's
outcome. -/
structure AuthedEnv where
  firstTry : Except PyErr Unit
  reloginEnv : PwLoginEnv
  secondTry : Except PyErr Unit

/-- `_authed_get`: on HTTP 401, re-login with the retained credentials and
retry once, or raise `SessionExpired` when none are retained; other errors
propagate. -/
def authedGet (env : AuthedEnv) (s : Session) : Except (PyErr × Session) Session :=
  match env.firstTry with
  | .ok _ => .ok s
  | .error (.httpStatus code) =>
      if code == 401 then
        match s.credentials with
        | some (u, p, sch) =>
            match loginProc env.reloginEnv u p sch s with
            | .error es => .error es
            | .ok s1 =>
                match env.secondTry with
                | .ok _ => .ok s1
                | .error e => .error (e, s1)
        | none =>
            .error (.sessionExpired "Сессия истекла. Авторизуйтесь заново.", s)
      else .error (.httpStatus code, s)
  | .error e => .error (e, s)

/-! ### `NetSchool.login_via_gosuslugi_qr` (client.py 501–641)

The crosslogin redirect walk, the QR-generate POST and the SSE listener are
abstracted as call-indexed oracles (`crosslogin` yields the final URL and
the cookies absorbed into the external jar; `qrGenerate` yields status,
response text and parsed body; `sse` yields the outcome of
`_poll_esia_qr_sse` — in particular any value `pollSseLines` can produce).
The orchestrator records a trace: the deep-links handed to the QR callback,
the backoff sleeps, and the crosslogin walks and cookie clears performed. -/

/-- Oracle for the QR orchestrator. -/
structure QrEnv where
  crosslogin : Nat → Except PyErr (String × List Cookie)
  qrGenerate : Nat → Except PyErr (Int × String × JVal)
  sse : Nat → Except PyErr JVal
  resolveEnv : ResolveEnv
  callbackChain : Except PyErr String
  finalize : FinalizeEnv

/-- The deep-link string handed to the QR callback for a signed token. -/
def qrDeepLink (t : String) : String :=
  "gosuslugi://auth/signed_token=" ++ t

/-- Observable side effects of a QR login run. -/
structure QrTrace where
  callbacks : List String := []
  sleeps : List Nat := []
  crossWalks : Nat := 0
  cookieClears : Nat := 0
  deriving DecidableEq, Repr

/-- The `for qr_attempt in range(1, max_qr_retries + 1)` loop.  On entry to
a retry attempt the external jar is cleared and the crosslogin chain is
re-walked, then the attempt generates the QR exchange (the `ESIA_SESSION`
session-affinity cookie feeds only the request body, which the oracle
abstracts), hands the deep-link to the QR callback and listens on the SSE
subscription; an `ESIAError` mentioning `ESIA-007110` before the last
attempt sleeps `attempt * 2` seconds and retries, any other error is
raised (wrapped in the descriptive QR failure when it is an `ESIAError`).
The fuel counts the attempts left (5 on first entry); a completed loop
without a break falls through with the initial empty `login_data` and
`signed_token` (unreachable: the last attempt either breaks or raises). -/
def qrAttemptLoop (env : QrEnv) (jar : List Cookie)
    (crossIdx genIdx sseIdx : Nat) (tr : QrTrace) (attempt : Nat) :
    Nat → (Except PyErr (JVal × JVal × List Cookie)) × QrTrace
  | 0 => (.ok (.jobj [], .jstr "", jar), tr)
  | fuel + 1 =>
      let pre : (Except PyErr (List Cookie)) × Nat × QrTrace :=
        if attempt > 1 then
          let tr1 := { tr with
                       cookieClears := tr.cookieClears + 1
                       crossWalks := tr.crossWalks + 1 }
          match env.crosslogin crossIdx with
          | .error e => (.error e, crossIdx + 1, tr1)
          | .ok (_, cks) => (.ok (applyCookies [] cks), crossIdx + 1, tr1)
        else (.ok jar, crossIdx, tr)
      match pre with
      | (.error e, _, tr1) => (.error e, tr1)
      | (.ok jar1, crossIdx1, tr1) =>
      match env.qrGenerate genIdx with
      | .error e => (.error e, tr1)
      | .ok (status, text, body) =>
      if status ≠ 200 then
        (.error (.esiaError ("Не удалось сгенерировать QR-код: "
          ++ toString status ++ " " ++ text.take 300)), tr1)
      else
      match body with
      | .jobj qfs =>
          let signedToken := dgetD qfs "signed_token" (.jstr "")
          let qrId := dgetD qfs "qr_id" (.jstr "")
          if !truthy signedToken || !truthy qrId then
            (.error (.esiaError ("ESIA не вернула QR данные: "
              ++ pyStr (.jobj qfs))), tr1)
          else
            let content := "gosuslugi://auth/signed_token=" ++ pyStr signedToken
            let tr2 := { tr1 with callbacks := tr1.callbacks ++ [content] }
            match env.sse sseIdx with
            | .ok loginData => (.ok (loginData, signedToken, jar1), tr2)
            | .error e =>
                if isEsiaErr e then
                  if containsSub (errStr e) "ESIA-007110" && attempt < 5 then
                    let tr3 := { tr2 with sleeps := tr2.sleeps ++ [attempt * 2] }
                    qrAttemptLoop env jar1 crossIdx1 (genIdx + 1) (sseIdx + 1)
                      tr3 (attempt + 1) fuel
                  else
                    (.error (.esiaError
                      ("Не удалось выполнить вход через QR-код. "
                        ++ "Возможные причины: сервер недоступен, "
                        ++ "QR-код не привязан к школе, "
                        ++ "или QR-код был отсканирован некорректно.\n"
                        ++ "Детали ошибки: " ++ errStr e)), tr2)
                else (.error e, tr2)
      | _ => (.error .pyOther, tr1)

/-- `login_via_gosuslugi_qr`: crosslogin to the broker (checking the final
URL), run the bounded QR attempt loop, resolve the scanned event to a
redirect URL, walk the callback chain to a login state and finalize the
login; the returned value is the last `signed_token`. -/
def loginViaGosuslugiQr (env : QrEnv) (school : Option String) (s : Session) :
    (Except (PyErr × Session) (JVal × Session)) × QrTrace :=
  let tr0 : QrTrace := { crossWalks := 1 }
  match env.crosslogin 0 with
  | .error e => (.error (e, s), tr0)
  | .ok (url, cks) =>
      if !containsSub url "esia.gosuslugi.ru" then
        (.error (.esiaError ("Не удалось добраться до страницы ESIA. "
          ++ "Финальный URL: " ++ url), s), tr0)
      else
        let jar := applyCookies [] cks
        match qrAttemptLoop env jar 1 0 0 tr0 1 5 with
        | (.error e, tr) => (.error (e, s), tr)
        | (.ok (loginData, signedToken, jarF), tr) =>
            match (match loginData with
                   | .jobj fs => esiaResolveLoginResponse env.resolveEnv fs
                   | _ => Except.error PyErr.pyOther) with
            | .error e => (.error (e, s), tr)
            | .ok redirectUrl =>
                if !truthy redirectUrl then
                  (.error (.esiaError ("Не удалось получить redirect_url "
                    ++ "после QR: " ++ pyStr loginData), s), tr)
                else
                  match env.callbackChain with
                  | .error e => (.error (e, s), tr)
                  | .ok _loginState =>
                      match esiaFinalizeLogin env.finalize jarF school s with
                      | .error es => (.error es, tr)
                      | .ok s2 => (.ok (signedToken, s2), tr)

/-! ### `NetSchool.login_via_gosuslugi` — ESIA password flow
(client.py 403–495) -/

/-- Oracle for the ESIA password flow (the resolver, callback chain and
finalize oracles are shared with the QR flow). -/
structure EsiaPwEnv where
  crosslogin : Except PyErr (String × List Cookie)
  loginPost : Except PyErr JVal
  resolveEnv : ResolveEnv
  callbackChain : Except PyErr String
  finalize : FinalizeEnv

/-- The `error_messages` mapping of the ESIA password login (fallback: the
raw code, rendered as Python prints it).  Container-valued codes crash the
dict lookup and are handled at the call site. -/
def esiaFailMsg : JVal → String
  | .jstr "INVALID_PASSWORD" => "Неверный пароль"
  | .jstr "INVALID_LOGIN" => "Неверный логин"
  | .jstr "ACCOUNT_LOCKED" => "Аккаунт заблокирован"
  | .jstr "ACCOUNT_NOT_FOUND" => "Аккаунт не найден"
  | .jstr "CAPTCHA_REQUIRED" => "Требуется captcha (слишком много попыток)"
  | c => pyStr c

/-- `login_via_gosuslugi` with both credentials supplied programmatically:
crosslogin to the broker, POST the credentials, map a `failed` response to
its user-facing message, resolve the response to a redirect URL, walk the
callback chain and finalize. -/
def loginViaGosuslugi (env : EsiaPwEnv) (esiaLogin esiaPassword : String)
    (school : Option String) (s : Session) : Except (PyErr × Session) Session :=
  if esiaLogin = "" || esiaPassword = "" then
    .error (.loginError "Логин и пароль не могут быть пустыми", s)
  else
  match env.crosslogin with
  | .error e => .error (e, s)
  | .ok (url, cks) =>
  if !containsSub url "esia.gosuslugi.ru" then
    .error (.esiaError ("Не удалось добраться до страницы ESIA. "
      ++ "Финальный URL: " ++ url), s)
  else
  let jar := applyCookies [] cks
  match env.loginPost with
  | .error e => .error (e, s)
  | .ok (.jobj fs) =>
    if hasKey fs "failed" then
      match dget fs "failed" with
      | .jarr _ => .error (.pyOther, s)
      | .jobj _ => .error (.pyOther, s)
      | code => .error (.esiaError ("Ошибка ESIA: " ++ esiaFailMsg code), s)
    else
    match esiaResolveLoginResponse env.resolveEnv fs with
    | .error e => .error (e, s)
    | .ok redirectUrl =>
    if !truthy redirectUrl then
      .error (.esiaError "Не удалось получить redirect_url от ESIA", s)
    else
    match env.callbackChain with
    | .error e => .error (e, s)
    | .ok _loginState => esiaFinalizeLogin env.finalize jar school s
  | .ok _ => .error (.pyOther, s)

/-! ### Concrete fixtures used by witnesses and counterexamples -/

/-- A post-MFA oracle whose `next-step` endpoint always echoes the same
unrecognized action. -/
def postMfaEchoEnv : PostMfaEnv :=
  { nextStep := fun _ => .ok (.jobj [("action", .jstr "FOO")])
    quizSkip := fun _ => .ok (200, .jobj [])
    pwSkip := fun _ => .ok (200, .jobj [])
    anomaly := fun _ => .ok .jnull }

/-- A post-MFA oracle that never answers (all calls raise). -/
def postMfaStuckEnv : PostMfaEnv :=
  { nextStep := fun _ => .error .pyOther
    quizSkip := fun _ => .error .pyOther
    pwSkip := fun _ => .error .pyOther
    anomaly := fun _ => .error .pyOther }

/-- A resolver oracle with failing delegates, for witnesses that never reach
them. -/
def trivResolveEnv : ResolveEnv :=
  { mfa := .error .pyOther
    anomaly := .error .pyOther
    postMfaEnv := postMfaStuckEnv }

/-- A logged-in session (as left by a successful password login). -/
def c1Pre : Session :=
  { student_id := 5
    year_id := 7
    school_id := 3
    assignment_types := []
    credentials := none
    access_token := .jstr "OLD"
    keepalive := true
    at_header := .jstr "OLD"
    cookies := [] }

/-- An initialization oracle whose identity-init call fails. -/
def c1Env : InitEnv :=
  { diaryInit := .error .pyOther
    yearsCurrent := .ok 7
    context := .error ()
    assignmentTypes := .ok [] }

/-- An initialization oracle consistent with `c1Pre` (still-valid session:
the portal answers with the same student and year). -/
def c7Env : InitEnv :=
  { diaryInit := .ok 5
    yearsCurrent := .ok 7
    context := .error ()
    assignmentTypes := .ok [(1, "Д", "Д")] }

/-- A portal password-login oracle that succeeds throughout. -/
def pwEnvOk : PwLoginEnv :=
  { logindata := .ok ()
    getdata := .ok "salt"
    schoolsSearch := .ok []
    loginPost := .ok [("at", .jstr "TOK")]
    diaryInit := .ok 5
    yearsCurrent := .ok 7
    assignmentTypes := .ok [] }

/-- A finalize oracle that succeeds with one linked organization. -/
def okFinalizeEnv : FinalizeEnv :=
  { logindata := .ok ()
    accountInfo := .ok (200, "",
      .jobj [("users", .jarr [.jobj [("id", .jnum 1),
        ("displayName", .jstr "Школа")]])])
    idpLogin := .ok (200, "", .jobj [("at", .jstr "AT")])
    promptChoice := 1
    init := { diaryInit := .ok 5
              yearsCurrent := .ok 7
              context := .ok 3
              assignmentTypes := .ok [] } }

/-- The session `okFinalizeEnv` produces from an empty session. -/
def okFinalizeResult : Session :=
  { student_id := 5
    year_id := 7
    school_id := 3
    assignment_types := []
    credentials := none
    access_token := .jstr "AT"
    keepalive := true
    at_header := .jstr "AT"
    cookies := [] }

/-- A token/cookie-login oracle that succeeds throughout. -/
def tokenEnvOk : TokenLoginEnv :=
  { diaryInit := .ok 5
    init := { diaryInit := .ok 5
              yearsCurrent := .ok 7
              context := .ok 3
              assignmentTypes := .ok [] }
    schoolsSearch := .ok [] }

/-- A cookie-login oracle that succeeds throughout. -/
def cookieEnvOk : CookieLoginEnv :=
  { diaryInit := .ok (5, "AT")
    init := { diaryInit := .ok 5
              yearsCurrent := .ok 7
              context := .ok 3
              assignmentTypes := .ok [] }
    schoolsSearch := .ok [] }

/-- A QR oracle for which the SSE listener fails with an `ESIA-007110`
broker error on the first two attempts and succeeds on the third. -/
def qrRetryEnv : QrEnv :=
  { crosslogin := fun _ => .ok ("https://esia.gosuslugi.ru/login/", [])
    qrGenerate := fun i => .ok (200, "",
      .jobj [("signed_token",
        .jstr (if i == 0 then "tokA" else if i == 1 then "tokB" else "tokC")),
             ("qr_id", .jstr "qr")])
    sse := fun i =>
      if i < 2 then
        .error (.esiaError
          "Ошибка ESIA при QR-входе: ESIA-007110 — Сессия истекла")
      else .ok (.jobj [("redirect_url", .jstr "https://sgo.example/callback")])
    resolveEnv := trivResolveEnv
    callbackChain := .ok "11112222-3333-4444-5555-666677778888"
    finalize := okFinalizeEnv }

/-- An ESIA password-flow oracle that succeeds without MFA. -/
def esiaPwEnvOk : EsiaPwEnv :=
  { crosslogin := .ok ("https://esia.gosuslugi.ru/login/", [])
    loginPost := .ok (.jobj [("redirect_url", .jstr "https://cb")])
    resolveEnv := trivResolveEnv
    callbackChain := .ok "11112222-3333-4444-5555-666677778888"
    finalize := okFinalizeEnv }

/-- The session `pwEnvOk` produces from an empty session. -/
def pwOkResult : Session :=
  { student_id := 5
    year_id := 7
    school_id := 3
    assignment_types := []
    credentials := some ("u", "p", .byId 3)
    access_token := .jstr "TOK"
    keepalive := true
    at_header := .jstr "TOK"
    cookies := [] }

/-- The session `tokenEnvOk` produces from an empty session. -/
def tokenOkResult : Session :=
  { student_id := 5
    year_id := 7
    school_id := 3
    assignment_types := []
    credentials := none
    access_token := .jstr "T"
    keepalive := true
    at_header := .jstr "T"
    cookies := [] }

/-- The session `cookieEnvOk` produces from an empty session and the cookie
string `NSSESSIONID=abc`. -/
def cookieOkResult : Session :=
  { student_id := 5
    year_id := 7
    school_id := 3
    assignment_types := []
    credentials := none
    access_token := .jstr "AT"
    keepalive := true
    at_header := .jstr "AT"
    cookies := [("NSSESSIONID", "abc")] }

/-- A QR oracle whose SSE listener yields the genuine expired-session error
that `pollSseLines` raises for an expired-code event. -/
def qrExpiredEnv : QrEnv :=
  { crosslogin := fun _ => .ok ("https://esia.gosuslugi.ru/login/", [])
    qrGenerate := fun _ => .ok (200, "",
      .jobj [("signed_token", .jstr "tokA"), ("qr_id", .jstr "qr")])
    sse := fun _ =>
      pollSseLines [.event (.jobj [("error", .jobj [("code",
        .jstr "QR_AUTHORIZATION_SESSION_EXPIRED")])])] .timedOut
    resolveEnv := trivResolveEnv
    callbackChain := .ok "11112222-3333-4444-5555-666677778888"
    finalize := okFinalizeEnv }

/-- An authenticated-GET oracle whose first request hits HTTP 401. -/
def authedEnv401 : AuthedEnv :=
  { firstTry := .error (.httpStatus 401)
    reloginEnv := pwEnvOk
    secondTry := .ok () }

/-! ## Claim theorems -/

/-! ### C4 — a present redirect URL short-circuits the resolver -/

theorem dget_cons_ne (k k2 : String) (v : JVal) (d : JObj) (h : ¬ k = k2) :
    dget ((k2, v) :: d) k = dget d k := by
  simp only [dget, dlookup, if_neg h]

theorem extract_cons_action (av : JVal) (d : JObj) :
    extractRedirectUrl (("action", av) :: d) = extractRedirectUrl d := by
  simp only [extractRedirectUrl]
  rw [dget_cons_ne _ _ _ _ (by decide), dget_cons_ne _ _ _ _ (by decide),
    dget_cons_ne _ _ _ _ (by decide), dget_cons_ne _ _ _ _ (by decide),
    dget_cons_ne _ _ _ _ (by decide), dget_cons_ne _ _ _ _ (by decide)]

/-- C4: for every broker response in which the extraction chain finds a
truthy redirect URL (any recognized field name, direct or nested under
`data`), the resolver returns that URL for every oracle environment (so no
handler is consulted) and for every value of the `action` field. -/
theorem c4_redirect_short_circuit (env : ResolveEnv) (d : JObj) (av : JVal)
    (h : truthy (extractRedirectUrl d) = true) :
    esiaResolveLoginResponse env d = .ok (extractRedirectUrl d) ∧
    esiaResolveLoginResponse env (("action", av) :: d) =
      .ok (extractRedirectUrl d) := by
  constructor
  · simp only [esiaResolveLoginResponse, h, if_pos]
  · simp only [esiaResolveLoginResponse, extract_cons_action, h, if_pos]

/-- C4 witness: a response with the URL under `data.redirectUrl` and a
contrary `action`. -/
theorem c4_redirect_short_circuit_witness :
    truthy (extractRedirectUrl
      [("data", .jobj [("redirectUrl", .jstr "https://x")])]) = true ∧
    esiaResolveLoginResponse trivResolveEnv
      (("action", .jstr "ENTER_MFA")
        :: [("data", .jobj [("redirectUrl", .jstr "https://x")])]) =
      .ok (.jstr "https://x") := by
  refine ⟨rfl, ?_⟩
  have h := c4_redirect_short_circuit trivResolveEnv
    [("data", .jobj [("redirectUrl", .jstr "https://x")])]
    (.jstr "ENTER_MFA") rfl
  exact h.2

/-! ### C5 — `DONE` without a redirect URL is a protocol error -/

theorem truthy_extract_of_direct (d : JObj)
    (h : truthy (dget d "redirect_url") = true) :
    truthy (extractRedirectUrl d) = true := by
  simp only [extractRedirectUrl, h, if_pos]

theorem action_done_nonempty (d : JObj)
    (h : dgetD d "action" (.jstr "") = .jstr "DONE") : d ≠ [] := by
  intro he
  subst he
  simp [dgetD, dlookup] at h

/-- C5: a response whose `action` is `DONE` but whose extraction chain finds
no truthy redirect URL makes the resolver raise the `ESIAError` protocol
error, and likewise makes the post-MFA step driver raise it on its `DONE`
branch; neither returns a URL. -/
theorem c5_done_without_redirect (env : ResolveEnv) (penv : PostMfaEnv)
    (d : JObj) (ha : dgetD d "action" (.jstr "") = .jstr "DONE")
    (hx : truthy (extractRedirectUrl d) = false) :
    esiaResolveLoginResponse env d =
      .error (.esiaError "ESIA вернула DONE без redirect_url") ∧
    (handleEsiaPostMfa penv d).1 =
      .error (.esiaError "ESIA вернула DONE без redirect_url") := by
  have hdir : truthy (dget d "redirect_url") = false := by
    cases h2 : truthy (dget d "redirect_url") with
    | false => rfl
    | true =>
        have h3 := truthy_extract_of_direct d h2
        rw [h3] at hx
        simp at hx
  have hne : d ≠ [] := action_done_nonempty d ha
  have hact : dget d "action" = .jstr "DONE" := by
    simp only [dgetD] at ha
    simp only [dget]
    cases hl : dlookup "action" d with
    | none =>
        rw [hl] at ha
        simp only [Option.getD] at ha
        exact absurd ha (by simp)
    | some v =>
        rw [hl] at ha
        simpa using ha
  have hemp : d.isEmpty = false := by
    cases d with
    | nil => exact absurd rfl hne
    | cons a t => rfl
  constructor
  · simp [esiaResolveLoginResponse, hx, ha, jeqStr, hdir]
  · simp only [handleEsiaPostMfa, hemp, hact]
    rw [if_neg (by simp [truthy])]
    rw [show (10 : Nat) = 9 + 1 from rfl]
    simp [postMfaLoop, ha, jeqStr, hdir]

/-- C5 witness: a `DONE` response with no redirect URL anywhere. -/
theorem c5_done_without_redirect_witness :
    dgetD [("action", JVal.jstr "DONE")] "action" (.jstr "") = .jstr "DONE" ∧
    truthy (extractRedirectUrl [("action", JVal.jstr "DONE")]) = false ∧
    esiaResolveLoginResponse trivResolveEnv [("action", JVal.jstr "DONE")] =
      .error (.esiaError "ESIA вернула DONE без redirect_url") ∧
    (handleEsiaPostMfa postMfaStuckEnv [("action", JVal.jstr "DONE")]).1 =
      .error (.esiaError "ESIA вернула DONE без redirect_url") := by
  have h := c5_done_without_redirect trivResolveEnv postMfaStuckEnv
    [("action", JVal.jstr "DONE")] rfl rfl
  exact ⟨rfl, rfl, h.1, h.2⟩

/-! ### C6 — the first decisive SSE event wins -/

theorem pollSse_skip (skips : List SseLine)
    (h : ∀ l ∈ skips, isSkipLine l = true) (rest : List SseLine)
    (ending : SseEnding) :
    pollSseLines (skips ++ rest) ending = pollSseLines rest ending := by
  induction skips with
  | nil => rfl
  | cons l t ih =>
      have hl := h l (by simp)
      have ht : ∀ x ∈ t, isSkipLine x = true := fun x hx => h x (by simp [hx])
      cases l with
      | other => simpa [pollSseLines] using ih ht
      | emptyData => simpa [pollSseLines] using ih ht
      | badJson => simpa [pollSseLines] using ih ht
      | event j => simp [isSkipLine] at hl

/-- C6: in the listener's read loop the first decisive event wins — after
any skipped lines, an event whose nested error code is in the expired set
raises the distinct QR-session-expired error, an event with any other
truthy error code raises the generic broker error carrying code and
message, and any other event is returned at once as the success payload
regardless of what follows; a stream with no decisive event ends in the
timeout error when the read times out. -/
theorem c6_sse_first_decisive (skips : List SseLine)
    (h : ∀ l ∈ skips, isSkipLine l = true) (fs : JObj) (rest : List SseLine)
    (ending : SseEnding) :
    (codeExpired (sseErrorCode fs) = true →
      pollSseLines (skips ++ .event (.jobj fs) :: rest) ending =
        .error (.esiaError ("QR сессия истекла: " ++ pyStr (sseErrorCode fs)))) ∧
    (codeExpired (sseErrorCode fs) = false → truthy (sseErrorCode fs) = true →
      pollSseLines (skips ++ .event (.jobj fs) :: rest) ending =
        .error (.esiaError ("Ошибка ESIA при QR-входе: "
          ++ pyStr (sseErrorCode fs) ++ " — " ++ pyStr (sseErrorMsg fs)))) ∧
    (codeExpired (sseErrorCode fs) = false → truthy (sseErrorCode fs) = false →
      pollSseLines (skips ++ .event (.jobj fs) :: rest) ending = .ok (.jobj fs)) ∧
    pollSseLines skips .timedOut =
      .error (.esiaError "Таймаут ожидания QR сканирования") := by
  rw [pollSse_skip skips h]
  refine ⟨fun hexp => ?_, fun hexp hcode => ?_, fun hexp hcode => ?_, ?_⟩
  · simp [pollSseLines, hexp]
  · simp [pollSseLines, hexp, hcode]
  · simp [pollSseLines, hexp, hcode]
  · have h2 := pollSse_skip skips h [] .timedOut
    rw [List.append_nil] at h2
    rw [h2]
    rfl

/-- C6 witness: a non-data line and a malformed payload are skipped, then
an expired-code event decides; a success event decides even with an error
event behind it; an undecided stream times out. -/
theorem c6_sse_first_decisive_witness :
    pollSseLines [.other, .badJson,
        .event (.jobj [("error", .jobj [("code",
          .jstr "QR_CODE_SESSION_NOT_FOUND")])])] .timedOut =
      .error (.esiaError "QR сессия истекла: QR_CODE_SESSION_NOT_FOUND") ∧
    pollSseLines [.event (.jobj [("ok", .jbool true)]),
        .event (.jobj [("error", .jobj [("code", .jstr "X")])])] .timedOut =
      .ok (.jobj [("ok", .jbool true)]) ∧
    pollSseLines [.other] .timedOut =
      .error (.esiaError "Таймаут ожидания QR сканирования") := by
  refine ⟨?_, ?_, ?_⟩
  · have h := c6_sse_first_decisive [.other, .badJson] (by decide)
      [("error", .jobj [("code", .jstr "QR_CODE_SESSION_NOT_FOUND")])]
      [] .timedOut
    exact h.1 rfl
  · have h := c6_sse_first_decisive [] (by decide)
      [("ok", .jbool true)]
      [.event (.jobj [("error", .jobj [("code", .jstr "X")])])] .timedOut
    exact h.2.2.1 rfl rfl
  · exact (c6_sse_first_decisive [.other] (by decide) [] [] .timedOut).2.2.2

/-! ### C8 / C9 — the organization picker -/

theorem labelStrings_spec :
    ∀ (users : List JVal) (ls : List String),
    labelStrings users = some ls →
    userLabels users = some (ls.map .jstr) ∧ users.length = ls.length := by
  intro users
  induction users with
  | nil =>
      intro ls h
      simp only [labelStrings, Option.some_inj] at h
      subst h
      exact ⟨rfl, rfl⟩
  | cons u rest ih =>
      intro ls h
      cases u with
      | jobj fs =>
          simp only [labelStrings] at h
          cases hl : userLabel fs with
          | jstr l =>
              rw [hl] at h
              cases hr : labelStrings rest with
              | none => rw [hr] at h; simp at h
              | some ls2 =>
                  rw [hr] at h
                  simp only [Option.map_some', Option.some_inj] at h
                  subst h
                  obtain ⟨h1, h2⟩ := ih ls2 hr
                  constructor
                  · simp [userLabels, h1, hl]
                  · simp [h2]
          | jnull => rw [hl] at h; simp at h
          | jbool b => rw [hl] at h; simp at h
          | jnum n => rw [hl] at h; simp at h
          | jarr xs => rw [hl] at h; simp at h
          | jobj fs2 => rw [hl] at h; simp at h
      | jnull => simp [labelStrings] at h
      | jbool b => simp [labelStrings] at h
      | jnum n => simp [labelStrings] at h
      | jstr s => simp [labelStrings] at h
      | jarr xs => simp [labelStrings] at h

theorem pickScan_none (sc : String) (allL : List JVal) :
    ∀ (ls : List String) (users : List JVal),
    ls.length = users.length →
    (∀ l ∈ ls, labelMatches sc l = false) →
    pickScan sc allL (ls.map .jstr) users = .failed sc allL := by
  intro ls
  induction ls with
  | nil =>
      intro users hlen _
      cases users with
      | nil => rfl
      | cons u us => simp at hlen
  | cons l t ih =>
      intro users hlen hm
      cases users with
      | nil => simp at hlen
      | cons u us =>
          have hl := hm l (by simp)
          simp only [List.map_cons, pickScan, labelMatches] at hl ⊢
          rw [if_neg (by simp [hl])]
          exact ih us (by simpa using hlen) (fun x hx => hm x (by simp [hx]))

theorem pickScan_first (sc : String) (allL : List JVal) :
    ∀ (ls : List String) (users : List JVal) (i : Nat)
      (hi : i < ls.length) (hu : i < users.length),
    ls.length = users.length →
    labelMatches sc (ls.get ⟨i, hi⟩) = true →
    (∀ j (hj : j < ls.length), j < i → labelMatches sc (ls.get ⟨j, hj⟩) = false) →
    pickScan sc allL (ls.map .jstr) users = .picked (users.get ⟨i, hu⟩) := by
  intro ls
  induction ls with
  | nil => intro users i hi; simp at hi
  | cons l t ih =>
      intro users i hi hu hlen hmatch hfirst
      cases users with
      | nil => simp at hlen
      | cons u us =>
          cases i with
          | zero =>
              simp only [List.get] at hmatch
              simp only [List.map_cons, pickScan, labelMatches] at hmatch ⊢
              rw [if_pos (by simp [hmatch])]
              rfl
          | succ i2 =>
              have hl0 : labelMatches sc l = false :=
                hfirst 0 (by simp) (Nat.succ_pos i2)
              simp only [List.map_cons, pickScan, labelMatches] at hl0 ⊢
              rw [if_neg (by simp [hl0])]
              exact ih us i2 (by simpa using hi) (by simpa using hu)
                (by simpa using hlen) (by simpa using hmatch)
                (fun j hj hji =>
                  hfirst (j + 1) (by simpa using hj) (by omega))

/-- C8: a sole candidate is returned whatever the hint (even one matching
nothing); with several candidates, a non-empty hint matching exactly one
display label (case-insensitive substring) returns that candidate, and a
hint matching no label fails carrying the full label list. -/
theorem c8_org_picker :
    (∀ (u : JVal) (school : Option String),
      pickEsiaUser [u] school = .picked u) ∧
    (∀ (users : List JVal) (sc : String) (ls : List String) (i : Nat)
       (hi : i < ls.length),
       1 < users.length → sc ≠ "" → labelStrings users = some ls →
       labelMatches sc (ls.get ⟨i, hi⟩) = true →
       (∀ j (hj : j < ls.length),
         labelMatches sc (ls.get ⟨j, hj⟩) = true → j = i) →
       ∃ hu : i < users.length,
         pickEsiaUser users (some sc) = .picked (users.get ⟨i, hu⟩)) ∧
    (∀ (users : List JVal) (sc : String) (ls : List String),
       1 < users.length → sc ≠ "" → labelStrings users = some ls →
       (∀ l ∈ ls, labelMatches sc l = false) →
       pickEsiaUser users (some sc) = .failed sc (ls.map .jstr)) := by
  refine ⟨fun u school => rfl, ?_, ?_⟩
  · intro users sc ls i hi hlen hsc hls hmatch huniq
    have hlab := (labelStrings_spec users ls hls).1
    have hlength := (labelStrings_spec users ls hls).2
    have hu : i < users.length := by omega
    refine ⟨hu, ?_⟩
    cases users with
    | nil => simp at hlen
    | cons u1 t =>
        cases t with
        | nil => simp at hlen
        | cons u2 r =>
            simp only [pickEsiaUser, hlab]
            rw [if_pos hsc]
            exact pickScan_first sc (ls.map .jstr) ls (u1 :: u2 :: r) i hi hu
              (by simpa using hlength.symm) hmatch
              (fun j hj hji => by
                cases hc : labelMatches sc (ls.get ⟨j, hj⟩) with
                | false => rfl
                | true => exact absurd (huniq j hj hc) (by omega))
  · intro users sc ls hlen hsc hls hnone
    have hlab := (labelStrings_spec users ls hls).1
    have hlength := (labelStrings_spec users ls hls).2
    cases users with
    | nil => simp at hlen
    | cons u1 t =>
        cases t with
        | nil => simp at hlen
        | cons u2 r =>
            simp only [pickEsiaUser, hlab]
            rw [if_pos hsc]
            exact pickScan_none sc (ls.map .jstr) ls (u1 :: u2 :: r)
              (by simpa using hlength.symm) hnone

/-- C8 witness: one candidate with a hopeless hint; two candidates with a
uniquely matching hint; two candidates with a hint matching neither. -/
theorem c8_org_picker_witness :
    pickEsiaUser [.jobj [("id", .jnum 7)]] (some "nothing") =
      .picked (.jobj [("id", .jnum 7)]) ∧
    pickEsiaUser
      [.jobj [("displayName", .jstr "Школа 1"), ("id", .jnum 1)],
       .jobj [("displayName", .jstr "Лицей 2"), ("id", .jnum 2)]]
      (some "лицей") =
      .picked (.jobj [("displayName", .jstr "Лицей 2"), ("id", .jnum 2)]) ∧
    pickEsiaUser
      [.jobj [("displayName", .jstr "Школа 1"), ("id", .jnum 1)],
       .jobj [("displayName", .jstr "Лицей 2"), ("id", .jnum 2)]]
      (some "гимназия") =
      .failed "гимназия" [.jstr "Школа 1", .jstr "Лицей 2"] := by
  refine ⟨c8_org_picker.1 (.jobj [("id", .jnum 7)]) (some "nothing"), ?_, ?_⟩
  · have h := c8_org_picker.2.1
      [.jobj [("displayName", .jstr "Школа 1"), ("id", .jnum 1)],
       .jobj [("displayName", .jstr "Лицей 2"), ("id", .jnum 2)]]
      "лицей" ["Школа 1", "Лицей 2"] 1 (by decide) (by decide) (by decide)
      rfl (by decide)
      (by
        intro j hj hm
        simp only [List.length_cons, List.length_nil] at hj
        interval_cases j
        · simp only [List.get] at hm
          exact absurd hm (by decide)
        · rfl)
    obtain ⟨hu, he⟩ := h
    exact he
  · exact c8_org_picker.2.2
      [.jobj [("displayName", .jstr "Школа 1"), ("id", .jnum 1)],
       .jobj [("displayName", .jstr "Лицей 2"), ("id", .jnum 2)]]
      "гимназия" ["Школа 1", "Лицей 2"] (by decide) (by decide) rfl
      (by decide)

/-- C9: with several candidates and a non-empty hint matching two or more
display labels, the picker returns the first matching candidate in list
order (no ambiguity error is raised). -/
theorem c9_org_picker_first_match (users : List JVal) (sc : String)
    (ls : List String) (i : Nat) (hi : i < ls.length)
    (hlen : 1 < users.length) (hsc : sc ≠ "")
    (hls : labelStrings users = some ls)
    (_hmulti : 2 ≤ (ls.filter (fun l => labelMatches sc l)).length)
    (hmatch : labelMatches sc (ls.get ⟨i, hi⟩) = true)
    (hfirst : ∀ j (hj : j < ls.length), j < i →
      labelMatches sc (ls.get ⟨j, hj⟩) = false) :
    ∃ hu : i < users.length,
      pickEsiaUser users (some sc) = .picked (users.get ⟨i, hu⟩) := by
  have hlab := (labelStrings_spec users ls hls).1
  have hlength := (labelStrings_spec users ls hls).2
  have hu : i < users.length := by omega
  refine ⟨hu, ?_⟩
  cases users with
  | nil => simp at hlen
  | cons u1 t =>
      cases t with
      | nil => simp at hlen
      | cons u2 r =>
          simp only [pickEsiaUser, hlab]
          rw [if_pos hsc]
          exact pickScan_first sc (ls.map .jstr) ls (u1 :: u2 :: r) i hi hu
            (by simpa using hlength.symm) hmatch hfirst

/-- C9 witness: a hint matching both labels returns the first candidate. -/
theorem c9_org_picker_first_match_witness :
    pickEsiaUser
      [.jobj [("displayName", .jstr "Школа 10"), ("id", .jnum 1)],
       .jobj [("displayName", .jstr "Школа 20"), ("id", .jnum 2)]]
      (some "школа") =
      .picked (.jobj [("displayName", .jstr "Школа 10"), ("id", .jnum 1)]) := by
  have h := c9_org_picker_first_match
    [.jobj [("displayName", .jstr "Школа 10"), ("id", .jnum 1)],
     .jobj [("displayName", .jstr "Школа 20"), ("id", .jnum 2)]]
    "школа" ["Школа 10", "Школа 20"] 0 (by decide) (by decide) (by decide)
    rfl (by decide) (by decide) (by omega)
  obtain ⟨hu, he⟩ := h
  exact he

/-! ### C3 — the post-MFA step driver's iteration bound -/

theorem postMfaLoop_iters_le (env : PostMfaEnv) :
    ∀ (fuel ns qs ps an iters : Nat) (data : JObj) (action : JVal),
    (postMfaLoop env ns qs ps an iters data action fuel).2 ≤ iters + fuel := by
  intro fuel
  induction fuel with
  | zero =>
      intro ns qs ps an iters data action
      simp [postMfaLoop]
  | succ f ih =>
      intro ns qs ps an iters data action
      simp only [postMfaLoop]
      repeat' split
      all_goals
        first
          | omega
          | exact Nat.le_trans (ih _ _ _ _ _ _ _) (by omega)

theorem handleEsiaPostMfa_iters_le (env : PostMfaEnv) (d : JObj) :
    (handleEsiaPostMfa env d).2 ≤ 10 := by
  unfold handleEsiaPostMfa
  repeat' split
  all_goals
    first
      | simp
      | exact Nat.le_trans (postMfaLoop_iters_le env 10 _ _ _ _ _ _ _) (by omega)

theorem dget_of_dgetD_action (d : JObj) (a : String)
    (ha : dgetD d "action" (.jstr "") = .jstr a) (hne : a ≠ "") :
    dget d "action" = .jstr a := by
  simp only [dgetD] at ha
  simp only [dget]
  cases hl : dlookup "action" d with
  | none =>
      rw [hl] at ha
      simp only [Option.getD] at ha
      injection ha with h2
      exact absurd h2.symm hne
  | some v =>
      rw [hl] at ha
      simpa using ha

/-- C3 (amended): the step driver executes at most 10 loop iterations for
every oracle and input; a server that always echoes the same unrecognized
action on the `next-step` query is caught by the no-progress loop-breaker on
the very first iteration, failing with the `ESIAError` protocol error there
(not after the bound of 10), and never loops. -/
theorem c3_step_driver_bound :
    (∀ (env : PostMfaEnv) (d : JObj), (handleEsiaPostMfa env d).2 ≤ 10) ∧
    (∀ (env : PostMfaEnv) (d fs : JObj) (a : String),
      a ≠ "" → a ≠ "DONE" → a ≠ "MAX_QUIZ" → a ≠ "CHANGE_PASSWORD" →
      a ≠ "SOLVE_ANOMALY_REACTION" →
      dgetD d "action" (.jstr "") = .jstr a →
      env.nextStep 0 = .ok (.jobj fs) →
      dgetD fs "action" (.jstr "") = .jstr a →
      handleEsiaPostMfa env d =
        (.error (.esiaError ("Неизвестный шаг ESIA: " ++ a ++ ". Данные: "
          ++ (dumpJson (.jobj d)).take 300)), 1)) := by
  refine ⟨handleEsiaPostMfa_iters_le, ?_⟩
  intro env d fs a hne hd hq hc hs ha hns hfa
  have hact : dget d "action" = .jstr a := dget_of_dgetD_action d a ha hne
  have hdne : d ≠ [] := by
    intro he
    subst he
    simp [dgetD, dlookup] at ha
    exact hne ha.symm
  have hemp : d.isEmpty = false := by
    cases d with
    | nil => exact absurd rfl hdne
    | cons x t => rfl
  simp only [handleEsiaPostMfa, hemp, hact]
  rw [if_neg (by simp [truthy, hne])]
  rw [show (10 : Nat) = 9 + 1 from rfl]
  generalize (9 : Nat) = f
  simp only [postMfaLoop, ha]
  rw [if_neg (by simp [jeqStr, hd]), if_neg (by simp [jeqStr, hq]),
    if_neg (by simp [jeqStr, hc]), if_neg (by simp [jeqStr, hs])]
  simp only [hns, hfa]
  rw [if_pos (by simp [pyEq])]
  simp [pyStr]

/-- C3 witness: the echoing oracle at the action `FOO`. -/
theorem c3_step_driver_bound_witness :
    (handleEsiaPostMfa postMfaStuckEnv []).2 ≤ 10 ∧
    handleEsiaPostMfa postMfaEchoEnv [("action", JVal.jstr "FOO")] =
      (.error (.esiaError ("Неизвестный шаг ESIA: FOO. Данные: "
        ++ (dumpJson (.jobj [("action", JVal.jstr "FOO")])).take 300)), 1) := by
  refine ⟨c3_step_driver_bound.1 postMfaStuckEnv [], ?_⟩
  exact c3_step_driver_bound.2 postMfaEchoEnv
    [("action", JVal.jstr "FOO")] [("action", JVal.jstr "FOO")] "FOO"
    (by decide) (by decide) (by decide) (by decide) (by decide) rfl rfl rfl

/-- C3 counterexample: with the echoing oracle the driver fails after one
iteration, not after the bound of 10 the claim requires. -/
theorem c3_echo_fails_at_first_iteration :
    (handleEsiaPostMfa postMfaEchoEnv [("action", JVal.jstr "FOO")]).2 = 1 ∧
    (1 : Nat) ≠ 10 := by
  exact ⟨rfl, by decide⟩

/-! ### C1 — login procedures do not mutate the Session atomically -/

/-- C1 (amended): the login procedures mutate the Session incrementally,
not atomically, so a failed attempt can leave Session fields set from that
attempt.  In `import_session` a failed identity-init raises
`SessionExpired` with the imported access token and cookies already
installed; in the password `login` a failed identity-init after the token
grant leaves the new access token and the school id set; and in the
password `login` the school id is stored even before the login POST, so a
rejected POST (HTTP 409) already leaves the school id mutated. -/
theorem c1_failed_login_leaves_mutations :
    (∀ (env : InitEnv) (p : SessionPayload) (s : Session) (e : PyErr),
      env.diaryInit = .error e →
      importSession env p s =
        .error (.sessionExpired ("Сессия истекла или невалидна: " ++ errStr e),
          { s with
            access_token := p.access_token
            at_header := p.access_token
            cookies := setKVs s.cookies p.cookies })) ∧
    (∀ (env : PwLoginEnv) (u pw salt : String) (i : Int) (s : Session)
       (body : JObj) (e : PyErr),
      env.logindata = .ok () →
      env.getdata = .ok salt →
      env.loginPost = .ok body →
      hasKey body "at" = true →
      env.diaryInit = .error e →
      loginProc env u pw (.byId i) s =
        .error (e,
          { s with
            school_id := i
            access_token := dget body "at"
            at_header := dget body "at" })) ∧
    (∀ (env : PwLoginEnv) (u pw salt : String) (i : Int) (s : Session)
       (body : Option JObj),
      env.logindata = .ok () →
      env.getdata = .ok salt →
      env.loginPost = .conflict body →
      ∃ m, loginProc env u pw (.byId i) s =
        .error (.loginError m, { s with school_id := i })) := by
  refine ⟨?_, ?_, ?_⟩
  · intro env p s e hdi
    simp [importSession, hdi]
  · intro env u pw salt i s body e hld hgd hlp hat hdi
    simp [loginProc, hld, hgd, hlp, hat, hdi]
  · intro env u pw salt i s body hld hgd hlp
    cases body with
    | none => exact ⟨"", by simp [loginProc, hld, hgd, hlp]⟩
    | some b =>
        exact ⟨pyStr (dgetD b "message" (.jstr "Ошибка авторизации")),
          by simp [loginProc, hld, hgd, hlp]⟩

/-- C1 counterexample: importing a snapshot over a logged-in session whose
identity-init call now fails raises `SessionExpired` with the Session
mutated — its access token is the imported one, not the pre-attempt one,
refuting "the Session is left in its pre-attempt state". -/
theorem c1_failed_import_mutates_session :
    importSession c1Env
      { access_token := .jstr "NEW", student_id := 9, year_id := 8,
        school_id := 4, cookies := [] } c1Pre =
      .error (.sessionExpired "Сессия истекла или невалидна: ",
        { c1Pre with access_token := .jstr "NEW", at_header := .jstr "NEW" }) ∧
    ({ c1Pre with access_token := JVal.jstr "NEW", at_header := JVal.jstr "NEW" } : Session).access_token ≠
      c1Pre.access_token := by
  constructor
  · rfl
  · simp [c1Pre]

/-- C1 witness: the amended theorem applied at the counterexample input and
at a concrete password-login run failing on identity-init. -/
theorem c1_failed_login_leaves_mutations_witness :
    importSession c1Env
      { access_token := .jstr "NEW", student_id := 9, year_id := 8,
        school_id := 4, cookies := [] } c1Pre =
      .error (.sessionExpired "Сессия истекла или невалидна: ",
        { c1Pre with
          access_token := .jstr "NEW"
          at_header := .jstr "NEW"
          cookies := setKVs c1Pre.cookies [] }) ∧
    loginProc { pwEnvOk with diaryInit := .error .pyOther } "u" "p"
      (.byId 3) ({} : Session) =
      .error (.pyOther,
        { ({} : Session) with
          school_id := 3
          access_token := dget [("at", .jstr "TOK")] "at"
          at_header := dget [("at", .jstr "TOK")] "at" }) ∧
    (∃ m, loginProc { pwEnvOk with loginPost := .conflict none } "u" "p"
      (.byId 3) ({} : Session) =
      .error (.loginError m, { ({} : Session) with school_id := 3 })) := by
  refine ⟨?_, ?_, ?_⟩
  · exact c1_failed_login_leaves_mutations.1 c1Env
      { access_token := .jstr "NEW", student_id := 9, year_id := 8,
        school_id := 4, cookies := [] } c1Pre .pyOther rfl
  · exact c1_failed_login_leaves_mutations.2.1
      { pwEnvOk with diaryInit := .error .pyOther } "u" "p" "salt" 3
      ({} : Session) [("at", .jstr "TOK")] .pyOther rfl rfl rfl rfl rfl
  · exact c1_failed_login_leaves_mutations.2.2
      { pwEnvOk with loginPost := .conflict none } "u" "p" "salt" 3
      ({} : Session) none rfl rfl rfl

/-! ### C7 — session export/import round trip -/

/-- C7: importing an exported snapshot of a still-valid session (the portal
still answers the identity-init with the same student and the year fetch
with the same year, and the school id is positive or the context fetch
reproduces it) succeeds and reproduces `student_id`, `year_id` and
`school_id`; importing a snapshot whose identity-init call has been
invalidated raises `SessionExpired`, not a generic error. -/
theorem c7_session_roundtrip :
    (∀ (s : Session) (env : InitEnv) (ats : List (Int × String × String)),
      env.diaryInit = .ok s.student_id →
      env.yearsCurrent = .ok s.year_id →
      (0 < s.school_id ∨ env.context = .ok s.school_id ∨
        env.context = .error ()) →
      env.assignmentTypes = .ok ats →
      ∃ s2, importSession env (exportSession s) s = .ok s2 ∧
        s2.student_id = s.student_id ∧ s2.year_id = s.year_id ∧
        s2.school_id = s.school_id) ∧
    (∀ (env : InitEnv) (p : SessionPayload) (s : Session) (e : PyErr),
      env.diaryInit = .error e →
      ∃ s2, importSession env p s =
        .error (.sessionExpired ("Сессия истекла или невалидна: "
          ++ errStr e), s2)) := by
  constructor
  · intro s env ats hdi hy hsch hat
    by_cases hle : s.school_id ≤ 0
    · rcases hsch with h | h | h
      · omega
      · simp [importSession, exportSession, finishLogin, hdi, hy, hat, hle, h]
      · simp [importSession, exportSession, finishLogin, hdi, hy, hat, hle, h]
    · simp [importSession, exportSession, finishLogin, hdi, hy, hat, hle]
  · intro env p s e hdi
    simp [importSession, hdi]

/-- C7 witness: the round trip on a concrete logged-in session, and the
expired import on the same session. -/
theorem c7_session_roundtrip_witness :
    (∃ s2, importSession c7Env (exportSession c1Pre) c1Pre = .ok s2 ∧
      s2.student_id = c1Pre.student_id ∧ s2.year_id = c1Pre.year_id ∧
      s2.school_id = c1Pre.school_id) ∧
    (∃ s2, importSession c1Env (exportSession c1Pre) c1Pre =
      .error (.sessionExpired "Сессия истекла или невалидна: ", s2)) := by
  constructor
  · exact c7_session_roundtrip.1 c1Pre c7Env [(1, "Д", "Д")] rfl rfl
      (Or.inl (by simp [c1Pre])) rfl
  · exact c7_session_roundtrip.2 c1Env (exportSession c1Pre) c1Pre .pyOther rfl

/-! ### C10 — only the portal password login retains credentials -/

theorem loginProc_ok_credentials (env : PwLoginEnv) (u p : String)
    (sch : SchoolArg) (s s2 : Session)
    (h : loginProc env u p sch s = .ok s2) :
    s2.credentials = some (u, p, sch) := by
  unfold loginProc at h
  repeat' split at h
  all_goals try simp_all
  all_goals try (repeat' split at h)
  all_goals try simp_all
  all_goals try (subst h; rfl)
  all_goals try simp_all

theorem esiaFinalize_ok_credentials (env : FinalizeEnv) (jar : List Cookie)
    (school : Option String) (s s2 : Session)
    (h : esiaFinalizeLogin env jar school s = .ok s2) :
    s2.credentials = none := by
  unfold esiaFinalizeLogin at h
  repeat' split at h
  all_goals try simp_all
  all_goals try (repeat' split at h)
  all_goals try simp_all
  all_goals try (subst h; rfl)

theorem loginWithToken_ok_credentials (env : TokenLoginEnv) (t : String)
    (school : Option SchoolArg) (s s2 : Session)
    (h : loginWithToken env t school s = .ok s2) :
    s2.credentials = none := by
  unfold loginWithToken at h
  repeat' split at h
  all_goals try simp_all
  all_goals try (repeat' split at h)
  all_goals try simp_all
  all_goals try (subst h; rfl)
  all_goals try simp_all

theorem loginWithCookies_ok_credentials (env : CookieLoginEnv) (c : String)
    (school : Option SchoolArg) (s s2 : Session)
    (h : loginWithCookies env c school s = .ok s2) :
    s2.credentials = none := by
  unfold loginWithCookies at h
  repeat' split at h
  all_goals try simp_all
  all_goals try (repeat' split at h)
  all_goals try simp_all
  all_goals try (subst h; rfl)
  all_goals try simp_all

theorem loginViaGosuslugi_ok_credentials (env : EsiaPwEnv) (l p : String)
    (school : Option String) (s s2 : Session)
    (h : loginViaGosuslugi env l p school s = .ok s2) :
    s2.credentials = none := by
  unfold loginViaGosuslugi at h
  repeat' split at h
  all_goals first
    | exact esiaFinalize_ok_credentials _ _ _ _ _ h
    | simp_all

theorem qrLogin_ok_credentials (env : QrEnv) (school : Option String)
    (s : Session) (tok : JVal) (s2 : Session) (tr : QrTrace)
    (h : loginViaGosuslugiQr env school s = (.ok (tok, s2), tr)) :
    s2.credentials = none := by
  unfold loginViaGosuslugiQr at h
  rcases hc : env.crosslogin 0 with e | ⟨url, cks⟩ <;> rw [hc] at h <;>
    dsimp only at h
  · simp at h
  · cases hu : containsSub url "esia.gosuslugi.ru" with
    | false => rw [if_pos (by simp [hu])] at h; simp at h
    | true =>
        rw [if_neg (by simp [hu])] at h
        rcases hq : qrAttemptLoop env (applyCookies [] cks) 1 0 0
            { crossWalks := 1 } 1 5 with ⟨res, tr2⟩
        rw [hq] at h
        rcases res with e | ⟨loginData, signedToken, jarF⟩ <;> dsimp only at h
        · simp at h
        · cases hr : (match loginData with
              | JVal.jobj fs => esiaResolveLoginResponse env.resolveEnv fs
              | _ => Except.error PyErr.pyOther) with
          | error e => rw [hr] at h; simp at h
          | ok redirectUrl =>
              rw [hr] at h
              dsimp only at h
              cases ht : truthy redirectUrl with
              | false => rw [if_pos (by simp [ht])] at h; simp at h
              | true =>
                  rw [if_neg (by simp [ht])] at h
                  rcases hcb : env.callbackChain with e | ls <;> rw [hcb] at h <;>
                    dsimp only at h
                  · simp at h
                  · cases hf : esiaFinalizeLogin env.finalize jarF school s with
                    | error es => rw [hf] at h; simp at h
                    | ok s3 =>
                        rw [hf] at h
                        dsimp only at h
                        simp only [Prod.mk.injEq, Except.ok.injEq] at h
                        obtain ⟨⟨htok, hs⟩, htr⟩ := h
                        subst hs
                        exact esiaFinalize_ok_credentials _ _ _ _ _ hf

/-- C10: a successful portal password login retains the credential triple;
every other successful login procedure (ESIA finalize — shared by the
password-flow and QR-flow — as well as the full ESIA password flow, the QR
flow, the token login and the cookie login) leaves the credentials cleared;
and an authenticated GET hitting HTTP 401 with no retained credentials
raises `SessionExpired` instead of re-logging in. -/
theorem c10_credential_retention :
    (∀ (env : PwLoginEnv) (u p : String) (sch : SchoolArg) (s s2 : Session),
      loginProc env u p sch s = .ok s2 → s2.credentials = some (u, p, sch)) ∧
    (∀ (env : FinalizeEnv) (jar : List Cookie) (school : Option String)
       (s s2 : Session),
      esiaFinalizeLogin env jar school s = .ok s2 → s2.credentials = none) ∧
    (∀ (env : EsiaPwEnv) (l p : String) (school : Option String)
       (s s2 : Session),
      loginViaGosuslugi env l p school s = .ok s2 → s2.credentials = none) ∧
    (∀ (env : QrEnv) (school : Option String) (s : Session) (tok : JVal)
       (s2 : Session) (tr : QrTrace),
      loginViaGosuslugiQr env school s = (.ok (tok, s2), tr) →
      s2.credentials = none) ∧
    (∀ (env : TokenLoginEnv) (t : String) (school : Option SchoolArg)
       (s s2 : Session),
      loginWithToken env t school s = .ok s2 → s2.credentials = none) ∧
    (∀ (env : CookieLoginEnv) (c : String) (school : Option SchoolArg)
       (s s2 : Session),
      loginWithCookies env c school s = .ok s2 → s2.credentials = none) ∧
    (∀ (env : AuthedEnv) (s : Session),
      s.credentials = none → env.firstTry = .error (.httpStatus 401) →
      authedGet env s =
        .error (.sessionExpired "Сессия истекла. Авторизуйтесь заново.", s)) := by
  refine ⟨loginProc_ok_credentials, esiaFinalize_ok_credentials,
    loginViaGosuslugi_ok_credentials, qrLogin_ok_credentials,
    loginWithToken_ok_credentials, loginWithCookies_ok_credentials, ?_⟩
  intro env s hcred hfirst
  simp [authedGet, hcred, hfirst]

/-- C10 witness: every conjunct applied at a concrete successful run, plus
a 401 on a credential-less session. -/
theorem c10_credential_retention_witness :
    pwOkResult.credentials = some ("u", "p", .byId 3) ∧
    okFinalizeResult.credentials = none ∧
    tokenOkResult.credentials = none ∧
    cookieOkResult.credentials = none ∧
    authedGet authedEnv401 ({} : Session) =
      .error (.sessionExpired "Сессия истекла. Авторизуйтесь заново.",
        ({} : Session)) := by
  refine ⟨?_, ?_, ?_, ?_, ?_⟩
  · exact c10_credential_retention.1 pwEnvOk "u" "p" (.byId 3) {} pwOkResult rfl
  · have h1 := c10_credential_retention.2.2.1 esiaPwEnvOk "l" "p" none {}
      okFinalizeResult rfl
    have h2 := c10_credential_retention.2.2.2.1 qrRetryEnv none {}
      (.jstr "tokC") okFinalizeResult
      { callbacks := [qrDeepLink "tokA", qrDeepLink "tokB", qrDeepLink "tokC"]
        sleeps := [2, 4]
        crossWalks := 3
        cookieClears := 2 } rfl
    exact c10_credential_retention.2.1 okFinalizeEnv [] none {}
      okFinalizeResult rfl
  · exact c10_credential_retention.2.2.2.2.1 tokenEnvOk "T" none {}
      tokenOkResult rfl
  · exact c10_credential_retention.2.2.2.2.2.1 cookieEnvOk "NSSESSIONID=abc"
      none {} cookieOkResult rfl
  · exact c10_credential_retention.2.2.2.2.2.2 authedEnv401 ({} : Session)
      rfl rfl

/-! ### C2 — what the QR orchestrator actually retries -/

theorem resolve_truthy (env : ResolveEnv) (d : JObj)
    (h : truthy (extractRedirectUrl d) = true) :
    esiaResolveLoginResponse env d = .ok (extractRedirectUrl d) := by
  simp only [esiaResolveLoginResponse, h, if_pos]

theorem strAppend_left_cancel (p a b : String) (h : p ++ a = p ++ b) :
    a = b := by
  cases p with | mk pd =>
  cases a with | mk ad =>
  cases b with | mk bd =>
  have h2 : pd ++ ad = pd ++ bd := by
    have h3 := congrArg String.data h
    simpa using h3
  exact congrArg String.mk (List.append_cancel_left h2)

theorem qrDeepLink_ne (a b : String) (h : a ≠ b) :
    qrDeepLink a ≠ qrDeepLink b := by
  intro he
  exact h (strAppend_left_cancel _ _ _ he)

/-- C2 (amended): the error class the QR orchestrator retries is an
`ESIAError` whose text contains `ESIA-007110` (a broker error code
surfaced by the generic branch of the SSE listener), not the listener's
distinct `QR session expired` errors.  When the listener raises such a
retriable error on attempts 1 and 2 and succeeds on attempt 3, the login
proceeds to success, the QR-display callback receives exactly the three
pairwise-distinct deep-links of the three generated tokens, each retry
clears the external cookies and re-walks the crosslogin chain, and the
backoff sleeps are `attempt * 2` seconds. -/
theorem c2_qr_retry_on_esia007110 (env : QrEnv) (school : Option String)
    (s : Session) (url0 url1 url2 : String) (cks0 cks1 cks2 : List Cookie)
    (t0 t1 t2 q0 q1 q2 x0 x1 x2 m0 m1 : String) (d : JObj) (ls : String)
    (sFin : Session)
    (hc0 : env.crosslogin 0 = .ok (url0, cks0))
    (hurl : containsSub url0 "esia.gosuslugi.ru" = true)
    (hc1 : env.crosslogin 1 = .ok (url1, cks1))
    (hc2 : env.crosslogin 2 = .ok (url2, cks2))
    (hg0 : env.qrGenerate 0 = .ok (200, x0,
      .jobj [("signed_token", .jstr t0), ("qr_id", .jstr q0)]))
    (hg1 : env.qrGenerate 1 = .ok (200, x1,
      .jobj [("signed_token", .jstr t1), ("qr_id", .jstr q1)]))
    (hg2 : env.qrGenerate 2 = .ok (200, x2,
      .jobj [("signed_token", .jstr t2), ("qr_id", .jstr q2)]))
    (ht0 : t0 ≠ "") (ht1 : t1 ≠ "") (ht2 : t2 ≠ "")
    (hq0 : q0 ≠ "") (hq1 : q1 ≠ "") (hq2 : q2 ≠ "")
    (hne01 : t0 ≠ t1) (hne02 : t0 ≠ t2) (hne12 : t1 ≠ t2)
    (hs0 : env.sse 0 = .error (.esiaError m0))
    (hm0 : containsSub m0 "ESIA-007110" = true)
    (hs1 : env.sse 1 = .error (.esiaError m1))
    (hm1 : containsSub m1 "ESIA-007110" = true)
    (hs2 : env.sse 2 = .ok (.jobj d))
    (hd : truthy (extractRedirectUrl d) = true)
    (hcb : env.callbackChain = .ok ls)
    (hfin : esiaFinalizeLogin env.finalize (applyCookies [] cks2) school s =
      .ok sFin) :
    loginViaGosuslugiQr env school s =
      (.ok (.jstr t2, sFin),
       { callbacks := [qrDeepLink t0, qrDeepLink t1, qrDeepLink t2]
         sleeps := [2, 4]
         crossWalks := 3
         cookieClears := 2 }) ∧
    qrDeepLink t0 ≠ qrDeepLink t1 ∧ qrDeepLink t0 ≠ qrDeepLink t2 ∧
    qrDeepLink t1 ≠ qrDeepLink t2 := by
  refine ⟨?_, qrDeepLink_ne _ _ hne01, qrDeepLink_ne _ _ hne02,
    qrDeepLink_ne _ _ hne12⟩
  unfold loginViaGosuslugiQr
  rw [hc0]
  dsimp only
  rw [if_neg (by simp [hurl])]
  simp [qrAttemptLoop, hc1, hc2, hg0, hg1, hg2, hs0, hs1, hs2,
    dgetD, dlookup, truthy, ht0, ht1, ht2, hq0, hq1, hq2, isEsiaErr,
    errStr, hm0, hm1, pyStr, resolve_truthy env.resolveEnv d hd, hd,
    hcb, hfin, qrDeepLink]
  have hd2 := hd
  unfold truthy at hd2
  simpa using hd2

/-- C2 witness: the amended theorem at a concrete oracle failing twice with
an `ESIA-007110` broker error and succeeding on the third attempt. -/
theorem c2_qr_retry_on_esia007110_witness :
    loginViaGosuslugiQr qrRetryEnv none ({} : Session) =
      (.ok (.jstr "tokC", okFinalizeResult),
       { callbacks := [qrDeepLink "tokA", qrDeepLink "tokB", qrDeepLink "tokC"]
         sleeps := [2, 4]
         crossWalks := 3
         cookieClears := 2 }) ∧
    qrDeepLink "tokA" ≠ qrDeepLink "tokB" ∧
    qrDeepLink "tokA" ≠ qrDeepLink "tokC" ∧
    qrDeepLink "tokB" ≠ qrDeepLink "tokC" := by
  exact c2_qr_retry_on_esia007110 qrRetryEnv none {}
    "https://esia.gosuslugi.ru/login/" "https://esia.gosuslugi.ru/login/"
    "https://esia.gosuslugi.ru/login/" [] [] []
    "tokA" "tokB" "tokC" "qr" "qr" "qr" "" "" ""
    "Ошибка ESIA при QR-входе: ESIA-007110 — Сессия истекла"
    "Ошибка ESIA при QR-входе: ESIA-007110 — Сессия истекла"
    [("redirect_url", .jstr "https://sgo.example/callback")]
    "11112222-3333-4444-5555-666677778888" okFinalizeResult
    rfl (by decide) rfl rfl rfl rfl rfl
    (by decide) (by decide) (by decide) (by decide) (by decide) (by decide)
    (by decide) (by decide) (by decide)
    rfl (by decide) rfl (by decide) rfl rfl rfl rfl

/-- C2 counterexample: when the SSE listener raises the genuine
`QR session expired` error (as it does for an expired-code event), the
orchestrator does not retry — it fails on the first attempt with the
wrapped descriptive error, having invoked the QR callback exactly once and
slept never; so the claim that this error class is retried to success with
three callback invocations is false. -/
theorem c2_expired_error_not_retried :
    (loginViaGosuslugiQr qrExpiredEnv none ({} : Session)).2.callbacks =
      [qrDeepLink "tokA"] ∧
    (loginViaGosuslugiQr qrExpiredEnv none ({} : Session)).2.callbacks.length
      = 1 ∧
    (1 : Nat) ≠ 3 ∧
    (loginViaGosuslugiQr qrExpiredEnv none ({} : Session)).2.sleeps = [] ∧
    (loginViaGosuslugiQr qrExpiredEnv none ({} : Session)).1 =
      .error (.esiaError ("Не удалось выполнить вход через QR-код. "
        ++ "Возможные причины: сервер недоступен, "
        ++ "QR-код не привязан к школе, "
        ++ "или QR-код был отсканирован некорректно.\n"
        ++ "Детали ошибки: "
        ++ "QR сессия истекла: QR_AUTHORIZATION_SESSION_EXPIRED"),
        ({} : Session)) := by
  exact ⟨rfl, rfl, by decide, rfl, rfl⟩

end NetSchoolPy
